import Mathlib

/-!
Shallow embedding of the `chip8-core` crate (`src/chip8-core/src/lib.rs` and
`errors.rs`) and proofs about the claims on its behaviour.

Modelling conventions:
* `u8`/`u16` values are `Nat`s; explicit wrapping ops (`overflowing_add`,
  `overflowing_sub`, `^=`, `<<=`) are modelled with `% 256`, while plain
  `+=` / `-=` on `u16` fields is modelled as checked arithmetic (the
  crate is exercised through `cargo test`, i.e. the debug profile, where
  overflow aborts): out-of-range results become `RRes.panicked`.
* Array indexing (`memory[i]`, `stack[i]`, `keyboard[i]`, slicing) is
  modelled by `rget` / `rset`, which panic out of bounds exactly as Rust
  indexing does.
* The four boxed peripheral trait objects (`NumberGenerator`, `Audio`,
  `Keyboard`, `Graphics`) are modelled by a `Devices` record holding the
  outcome each call would produce during the cycle under study.
-/

namespace Chip8V

/-- Mirror of `Chip8Error` from `errors.rs`. -/
inductive Chip8Error where
  | UnableToLoadProgram
  | InvalidOpcode (op : Nat)
  | GraphicsError (msg : String)
deriving DecidableEq, Repr

/-- Outcome of running a piece of Rust code: a panic (index out of bounds /
checked-arithmetic overflow), an `Err(Chip8Error)`, or an `Ok` value. -/
inductive RRes (α : Type) where
  | panicked
  | err (e : Chip8Error)
  | ok (a : α)
deriving Repr, DecidableEq

def RRes.bind {α β : Type} : RRes α → (α → RRes β) → RRes β
  | .panicked, _ => .panicked
  | .err e, _ => .err e
  | .ok a, f => f a

instance : Monad RRes where
  pure := RRes.ok
  bind := RRes.bind

/-- Mirror of the `Chip8` struct fields (the four boxed devices are kept
separately in `Devices`). Rust's array types fix the lengths
(memory 4096, graphics 2048, keyboard 16, stack 16, v_registers 16);
theorems that need a length state it as a hypothesis. -/
structure Chip8 where
  delay_timer : Nat
  graphics : List Nat
  index_register : Nat
  keyboard : List Nat
  memory : List Nat
  opcode : Nat
  program_counter : Nat
  sound_timer : Nat
  stack : List Nat
  stack_pointer : Nat
  v_registers : List Nat
deriving DecidableEq, Repr

/-- Behaviour of the boxed peripheral devices during one cycle:
`rand` is what `random_number_generator.generate()` returns, `draw_res`
what `graphics_device.draw` returns, `play_res` what `audio_device.play`
returns, `next_key` what `keyboard_device.wait_next_key_press()` returns,
and `kb_new` / `kb_exit` the keyboard contents written and the Bool
returned by `keyboard_device.update_state`. -/
structure Devices where
  rand : Except Chip8Error Nat
  draw_res : Except Chip8Error Unit
  play_res : Except Chip8Error Unit
  next_key : Nat
  kb_new : List Nat
  kb_exit : Bool

/-- Rust index read `l[i]`: panics when out of bounds. -/
def rget (l : List Nat) (i : Nat) : RRes Nat :=
  match l.get? i with
  | some v => .ok v
  | none => .panicked

/-- Rust index write `l[i] = v`: panics when out of bounds. (Structural
recursion on the index keeps concrete evaluation shallow; `rset_eq` below
gives the bounds-check characterisation.) -/
def rset : List Nat → Nat → Nat → RRes (List Nat)
  | [], _, _ => .panicked
  | _ :: t, 0, v => .ok (v :: t)
  | h :: t, i + 1, v => (rset t i v).bind fun r => .ok (h :: r)

/-- Checked `u16` addition (`+=` in the debug profile). -/
def cadd16 (a b : Nat) : RRes Nat :=
  if a + b < 65536 then .ok (a + b) else .panicked

/-- Checked subtraction (`-=` in the debug profile). -/
def csub (a b : Nat) : RRes Nat :=
  if b ≤ a then .ok (a - b) else .panicked

/-! ### The opcode handlers, one Lean def per Rust method -/

def clear_display (s : Chip8) : Chip8 :=
  { s with graphics := s.graphics.map fun _ => 0 }

def return_from_routine (s : Chip8) : RRes Chip8 := do
  let sp ← csub s.stack_pointer 1
  let v ← rget s.stack sp
  pure { s with stack_pointer := sp, program_counter := v }

def jump_to_address (nnn : Nat) (s : Chip8) : Chip8 :=
  { s with program_counter := nnn }

def jump_to_routine (nnn : Nat) (s : Chip8) : RRes Chip8 := do
  let st ← rset s.stack s.stack_pointer s.program_counter
  let sp ← cadd16 s.stack_pointer 1
  pure { s with stack := st, stack_pointer := sp, program_counter := nnn }

def skip_instruction_if_vx_equals_nn (vx nn : Nat) (s : Chip8) : RRes Chip8 := do
  let v ← rget s.v_registers vx
  if v = nn % 256 then
    let pc ← cadd16 s.program_counter 2
    pure { s with program_counter := pc }
  else
    pure s

def skip_instruction_if_vx_not_equals_nn (vx nn : Nat) (s : Chip8) : RRes Chip8 := do
  let v ← rget s.v_registers vx
  if v ≠ nn % 256 then
    let pc ← cadd16 s.program_counter 2
    pure { s with program_counter := pc }
  else
    pure s

def skip_instruction_if_vx_equals_vy (vx vy : Nat) (s : Chip8) : RRes Chip8 := do
  let x ← rget s.v_registers vx
  let y ← rget s.v_registers vy
  if x = y then
    let pc ← cadd16 s.program_counter 2
    pure { s with program_counter := pc }
  else
    pure s

def set_vx_to_nn (vx nn : Nat) (s : Chip8) : RRes Chip8 := do
  let v ← rset s.v_registers vx (nn % 256)
  pure { s with v_registers := v }

def add_nn_to_vx (vx nn : Nat) (s : Chip8) : RRes Chip8 := do
  let x ← rget s.v_registers vx
  let v ← rset s.v_registers vx ((x + nn % 256) % 256)
  pure { s with v_registers := v }

def skip_instruction_if_vx_not_equals_vy (vx vy : Nat) (s : Chip8) : RRes Chip8 := do
  let y ← rget s.v_registers vy
  let x ← rget s.v_registers vx
  if x ≠ y then
    let pc ← cadd16 s.program_counter 2
    pure { s with program_counter := pc }
  else
    pure s

def set_index_register_to_nnn (nnn : Nat) (s : Chip8) : Chip8 :=
  { s with index_register := nnn }

def jump_to_address_nnn_plus_v0 (nnn : Nat) (s : Chip8) : RRes Chip8 := do
  let v0 ← rget s.v_registers 0
  let x ← cadd16 nnn v0
  let pc ← cadd16 s.program_counter x
  pure { s with program_counter := pc }

def set_vx_to_random_number_bitwise_and_nn (dev : Devices) (vx nn : Nat) (s : Chip8) :
    RRes Chip8 :=
  match dev.rand with
  | .error e => .err e
  | .ok r => do
      let v ← rset s.v_registers vx (r &&& nn % 256)
      pure { s with v_registers := v }

/-- One iteration of the inner draw loop body (for a sprite bit that is set):
`v_registers[0xF] = if graphics[index] == 1 { 1 } else { 0 }; graphics[index] ^= 1`. -/
def draw_cell (vx vy row col : Nat) (gv : List Nat × List Nat) :
    RRes (List Nat × List Nat) := do
  let c := (vx + col) % 64
  let r := (vy + row) % 32
  let idx := c + r * 64
  let cur ← rget gv.1 idx
  let v ← rset gv.2 15 (if cur = 1 then 1 else 0)
  let g ← rset gv.1 idx (cur ^^^ 1)
  pure (g, v)

/-- One sprite row: for each of the 8 columns, if `byte & (0x80 >> col) > 0`
run the loop body. -/
def draw_byte (vx vy row byt : Nat) (gv : List Nat × List Nat) :
    RRes (List Nat × List Nat) :=
  (List.range 8).foldlM
    (fun gv col =>
      if byt &&& (0x80 >>> col) > 0 then draw_cell vx vy row col gv else pure gv)
    gv

def set_graphics (vx_index vy_index n : Nat) (s : Chip8) : RRes Chip8 := do
  let vx ← rget s.v_registers vx_index
  let vy ← rget s.v_registers vy_index
  let hi ← cadd16 s.index_register n
  let bytes ←
    (if hi ≤ s.memory.length then
      pure ((s.memory.drop s.index_register).take n)
    else
      .panicked : RRes (List Nat))
  let v0 ← rset s.v_registers 15 0
  let gv ← bytes.enum.foldlM
    (fun gv rb => draw_byte vx vy rb.1 rb.2 gv) (s.graphics, v0)
  pure { s with graphics := gv.1, v_registers := gv.2 }

def skips_instruction_if_vx_key_is_pressed (vx : Nat) (s : Chip8) : RRes Chip8 := do
  let v ← rget s.v_registers vx
  let k ← rget s.keyboard v
  if k = 1 then
    let pc ← cadd16 s.program_counter 2
    pure { s with program_counter := pc }
  else
    pure s

def skips_instruction_if_vx_key_is_not_pressed (vx : Nat) (s : Chip8) : RRes Chip8 := do
  let v ← rget s.v_registers vx
  let k ← rget s.keyboard v
  if k = 0 then
    let pc ← cadd16 s.program_counter 2
    pure { s with program_counter := pc }
  else
    pure s

def sets_vx_to_delay_timer (vx : Nat) (s : Chip8) : RRes Chip8 := do
  let v ← rset s.v_registers vx s.delay_timer
  pure { s with v_registers := v }

def sets_vx_to_key_press (dev : Devices) (vx : Nat) (s : Chip8) : RRes Chip8 := do
  let v ← rset s.v_registers vx dev.next_key
  pure { s with v_registers := v }

def sets_delay_timer_to_vx (vx : Nat) (s : Chip8) : RRes Chip8 := do
  let x ← rget s.v_registers vx
  pure { s with delay_timer := x }

def sets_sound_timer_to_vx (vx : Nat) (s : Chip8) : RRes Chip8 := do
  let x ← rget s.v_registers vx
  pure { s with sound_timer := x }

def adds_vx_to_i (vx : Nat) (s : Chip8) : RRes Chip8 := do
  let x ← rget s.v_registers vx
  let i ← cadd16 s.index_register x
  pure { s with index_register := i }

def sets_i_to_vx (vx : Nat) (s : Chip8) : RRes Chip8 := do
  let x ← rget s.v_registers vx
  pure { s with index_register := x }

def store_bcd_of_vx_from_i (vx : Nat) (s : Chip8) : RRes Chip8 := do
  let x ← rget s.v_registers vx
  let m1 ← rset s.memory s.index_register (x / 100)
  let m2 ← rset m1 (s.index_register + 1) (x / 10 % 10)
  let m3 ← rset m2 (s.index_register + 2) (x % 10)
  pure { s with memory := m3 }

def stores_v0_to_vx_in_memory_from_i (vx : Nat) (s : Chip8) : RRes Chip8 := do
  let slice ←
    (if vx < s.v_registers.length then
      pure (s.v_registers.take (vx + 1))
    else
      .panicked : RRes (List Nat))
  let m ← slice.enum.foldlM
    (fun m iv => rset m (s.index_register + iv.1) iv.2) s.memory
  pure { s with memory := m }

def writes_v0_to_vx_from_memory_i (vx : Nat) (s : Chip8) : RRes Chip8 := do
  let _ ← (if vx < s.v_registers.length then pure () else .panicked : RRes Unit)
  let v ← (List.range (vx + 1)).foldlM
    (fun v idx => do
      let b ← rget s.memory (s.index_register + idx)
      rset v idx b)
    s.v_registers
  pure { s with v_registers := v }

def sets_vx_to_vy (vx vy : Nat) (s : Chip8) : RRes Chip8 := do
  let y ← rget s.v_registers vy
  let v ← rset s.v_registers vx y
  pure { s with v_registers := v }

def sets_vx_to_vx_bitwise_or_vy (vx vy : Nat) (s : Chip8) : RRes Chip8 := do
  let x ← rget s.v_registers vx
  let y ← rget s.v_registers vy
  let v ← rset s.v_registers vx (x ||| y)
  pure { s with v_registers := v }

def sets_vx_to_vx_bitwise_and_vy (vx vy : Nat) (s : Chip8) : RRes Chip8 := do
  let x ← rget s.v_registers vx
  let y ← rget s.v_registers vy
  let v ← rset s.v_registers vx (x &&& y)
  pure { s with v_registers := v }

def sets_vx_to_vx_bitwise_xor_vy (vx vy : Nat) (s : Chip8) : RRes Chip8 := do
  let x ← rget s.v_registers vx
  let y ← rget s.v_registers vy
  let v ← rset s.v_registers vx (x ^^^ y)
  pure { s with v_registers := v }

def adds_vy_to_vx_setting_vf_on_borrow (vx vy : Nat) (s : Chip8) : RRes Chip8 := do
  let y ← rget s.v_registers vy
  let x ← rget s.v_registers vx
  let result := (x + y) % 256
  let v1 ←
    if 256 ≤ x + y then rset s.v_registers 15 1
    else pure s.v_registers
  let v2 ← rset v1 vx result
  pure { s with v_registers := v2 }

def subtracts_vy_from_vx_setting_vf_on_borrow (vx vy : Nat) (s : Chip8) : RRes Chip8 := do
  let y ← rget s.v_registers vy
  let x ← rget s.v_registers vx
  let result := (256 + x - y) % 256
  let v1 ←
    if x < y then rset s.v_registers 15 1
    else pure s.v_registers
  let v2 ← rset v1 vx result
  pure { s with v_registers := v2 }

def store_lsb_of_vx_in_vf_shifting_vx_by_1 (vx : Nat) (s : Chip8) : RRes Chip8 := do
  let x ← rget s.v_registers vx
  let v1 ← rset s.v_registers 15 (x &&& 1)
  let cur ← rget v1 vx
  let v2 ← rset v1 vx (cur / 2)
  pure { s with v_registers := v2 }

def set_vx_to_vy_minus_vx_setting_vf_on_borrow (vx vy : Nat) (s : Chip8) : RRes Chip8 := do
  let y ← rget s.v_registers vy
  let x ← rget s.v_registers vx
  let result := (256 + x - y) % 256
  let v1 ←
    if x < y then rset s.v_registers 15 1
    else rset s.v_registers 15 0
  let v2 ← rset v1 vx result
  pure { s with v_registers := v2 }

def store_msb_of_vx_in_vf_shifting_vx_by_1 (vx : Nat) (s : Chip8) : RRes Chip8 := do
  let x ← rget s.v_registers vx
  let v1 ← rset s.v_registers 15 (x / 128)
  let cur ← rget v1 vx
  let v2 ← rset v1 vx (cur * 2 % 256)
  pure { s with v_registers := v2 }

/-! ### Dispatch and the program-counter advance -/

/-- The big `match self.opcode` in `interpret_opcode`, before the
program-counter advance. The decoded fields of an opcode `op` are
`vx = op / 256 % 16` (bits 8-11), `vy = op / 16 % 16` (bits 4-7),
`nnn = op % 4096`, `nn = op % 256` and `n = op % 16`, written inline. -/
def dispatch (dev : Devices) (s : Chip8) : RRes Chip8 :=
  if s.opcode = 0x00E0 then pure (clear_display s)
  else if s.opcode = 0x00EE then return_from_routine s
  else if 0x1000 ≤ s.opcode ∧ s.opcode ≤ 0x1FFF then
    pure (jump_to_address (s.opcode % 4096) s)
  else if 0x2000 ≤ s.opcode ∧ s.opcode ≤ 0x2FFF then
    jump_to_routine (s.opcode % 4096) s
  else if 0x3000 ≤ s.opcode ∧ s.opcode ≤ 0x3FFF then
    skip_instruction_if_vx_equals_nn (s.opcode / 256 % 16) (s.opcode % 256) s
  else if 0x4000 ≤ s.opcode ∧ s.opcode ≤ 0x4FFF then
    skip_instruction_if_vx_not_equals_nn (s.opcode / 256 % 16) (s.opcode % 256) s
  else if 0x5000 ≤ s.opcode ∧ s.opcode ≤ 0x5FFF then
    skip_instruction_if_vx_equals_vy (s.opcode / 256 % 16) (s.opcode / 16 % 16) s
  else if 0x6000 ≤ s.opcode ∧ s.opcode ≤ 0x6FFF then
    set_vx_to_nn (s.opcode / 256 % 16) (s.opcode % 256) s
  else if 0x7000 ≤ s.opcode ∧ s.opcode ≤ 0x7FFF then
    add_nn_to_vx (s.opcode / 256 % 16) (s.opcode % 256) s
  else if 0x8000 ≤ s.opcode ∧ s.opcode ≤ 0x8FFF then
    if s.opcode % 16 = 0x0 then
      sets_vx_to_vy (s.opcode / 256 % 16) (s.opcode / 16 % 16) s
    else if s.opcode % 16 = 0x1 then
      sets_vx_to_vx_bitwise_or_vy (s.opcode / 256 % 16) (s.opcode / 16 % 16) s
    else if s.opcode % 16 = 0x2 then
      sets_vx_to_vx_bitwise_and_vy (s.opcode / 256 % 16) (s.opcode / 16 % 16) s
    else if s.opcode % 16 = 0x3 then
      sets_vx_to_vx_bitwise_xor_vy (s.opcode / 256 % 16) (s.opcode / 16 % 16) s
    else if s.opcode % 16 = 0x4 then
      adds_vy_to_vx_setting_vf_on_borrow (s.opcode / 256 % 16) (s.opcode / 16 % 16) s
    else if s.opcode % 16 = 0x5 then
      subtracts_vy_from_vx_setting_vf_on_borrow (s.opcode / 256 % 16) (s.opcode / 16 % 16) s
    else if s.opcode % 16 = 0x6 then
      store_lsb_of_vx_in_vf_shifting_vx_by_1 (s.opcode / 256 % 16) s
    else if s.opcode % 16 = 0x7 then
      set_vx_to_vy_minus_vx_setting_vf_on_borrow (s.opcode / 256 % 16) (s.opcode / 16 % 16) s
    else if s.opcode % 16 = 0xE then
      store_msb_of_vx_in_vf_shifting_vx_by_1 (s.opcode / 256 % 16) s
    else .err (.InvalidOpcode s.opcode)
  else if 0x9000 ≤ s.opcode ∧ s.opcode ≤ 0x9FFF then
    skip_instruction_if_vx_not_equals_vy (s.opcode / 256 % 16) (s.opcode / 16 % 16) s
  else if 0xA000 ≤ s.opcode ∧ s.opcode ≤ 0xAFFF then
    pure (set_index_register_to_nnn (s.opcode % 4096) s)
  else if 0xB000 ≤ s.opcode ∧ s.opcode ≤ 0xBFFF then
    jump_to_address_nnn_plus_v0 (s.opcode % 4096) s
  else if 0xC000 ≤ s.opcode ∧ s.opcode ≤ 0xCFFF then
    set_vx_to_random_number_bitwise_and_nn dev (s.opcode / 256 % 16) (s.opcode % 256) s
  else if 0xD000 ≤ s.opcode ∧ s.opcode ≤ 0xDFFF then
    set_graphics (s.opcode / 256 % 16) (s.opcode / 16 % 16) (s.opcode % 16) s
  else if 0xE000 ≤ s.opcode ∧ s.opcode ≤ 0xEFFF then
    if s.opcode % 256 = 0x9E then
      skips_instruction_if_vx_key_is_pressed (s.opcode / 256 % 16) s
    else if s.opcode % 256 = 0xA1 then
      skips_instruction_if_vx_key_is_not_pressed (s.opcode / 256 % 16) s
    else .err (.InvalidOpcode s.opcode)
  else if 0xF000 ≤ s.opcode ∧ s.opcode ≤ 0xFFFF then
    if s.opcode % 256 = 0x07 then sets_vx_to_delay_timer (s.opcode / 256 % 16) s
    else if s.opcode % 256 = 0x0A then sets_vx_to_key_press dev (s.opcode / 256 % 16) s
    else if s.opcode % 256 = 0x15 then sets_delay_timer_to_vx (s.opcode / 256 % 16) s
    else if s.opcode % 256 = 0x18 then sets_sound_timer_to_vx (s.opcode / 256 % 16) s
    else if s.opcode % 256 = 0x1E then adds_vx_to_i (s.opcode / 256 % 16) s
    else if s.opcode % 256 = 0x29 then sets_i_to_vx (s.opcode / 256 % 16) s
    else if s.opcode % 256 = 0x33 then store_bcd_of_vx_from_i (s.opcode / 256 % 16) s
    else if s.opcode % 256 = 0x55 then stores_v0_to_vx_in_memory_from_i (s.opcode / 256 % 16) s
    else if s.opcode % 256 = 0x65 then writes_v0_to_vx_from_memory_i (s.opcode / 256 % 16) s
    else .err (.InvalidOpcode s.opcode)
  else .err (.InvalidOpcode s.opcode)

/-- Lines 182-185 of `lib.rs`: after the dispatch, add 2 to the program
counter unless the leading nibble is 0x1, 0x2 or 0xB. -/
def advance (lead : Nat) (t : Chip8) : RRes Chip8 :=
  if lead = 0x1 ∨ lead = 0x2 ∨ lead = 0xB then pure t
  else do
    let pc ← cadd16 t.program_counter 2
    pure { t with program_counter := pc }

/-- `Chip8::interpret_opcode`. -/
def interpret_opcode (dev : Devices) (s : Chip8) : RRes Chip8 :=
  dispatch dev s >>= advance (s.opcode / 4096)

/-- Executing one instruction whose fetched opcode is `op` (the fetch step
stores the opcode in the state, then `interpret_opcode` runs on it). -/
def execOp (dev : Devices) (op : Nat) (s : Chip8) : RRes Chip8 :=
  interpret_opcode dev { s with opcode := op }

/-! ### The cycle around the dispatcher -/

/-- `Chip8::fetch_opcode`: big-endian compose of the two bytes at the
program counter. -/
def fetch_opcode (s : Chip8) : RRes Chip8 := do
  let hi ← rget s.memory s.program_counter
  let lo ← rget s.memory (s.program_counter + 1)
  pure { s with opcode := (hi <<< 8) ||| lo }

/-- `Chip8::update_timers`. The state component carries the mutations made
before a possible `audio_device.play()` error (the delay timer is already
decremented in that case, the sound timer not yet). -/
def update_timers (dev : Devices) (s : Chip8) : Chip8 × Except Chip8Error Unit :=
  let s1 := if s.delay_timer > 0 then { s with delay_timer := s.delay_timer - 1 } else s
  if s1.sound_timer > 0 then
    if s1.sound_timer = 1 then
      match dev.play_res with
      | .error e => (s1, .error e)
      | .ok _ => ({ s1 with sound_timer := s1.sound_timer - 1 }, .ok ())
    else ({ s1 with sound_timer := s1.sound_timer - 1 }, .ok ())
  else (s1, .ok ())

/-- Mirror of the `State` enum returned by `emulate_cycle`. -/
inductive Cont where
  | Continue
  | Exit
deriving DecidableEq, Repr

/-- Result of one `emulate_cycle` call. Because `emulate_cycle` takes
`&mut self`, the caller keeps the mutated state even when the call returns
`Err`, so the non-panic outcome pairs the final state with the returned
`Result<State, Chip8Error>`. -/
inductive CycRes where
  | panicked
  | out (s : Chip8) (r : Except Chip8Error Cont)
deriving Repr

/-- `Chip8::emulate_cycle`. The `.err` case of `interpret_opcode` keeps the
post-fetch state: every error path in `interpret_opcode` (invalid opcode,
number-source failure) returns before mutating anything. -/
def emulate_cycle (dev : Devices) (s : Chip8) : CycRes :=
  match fetch_opcode s with
  | .panicked => .panicked
  | .err _ => .panicked
  | .ok s1 =>
    match interpret_opcode dev s1 with
    | .panicked => .panicked
    | .err e => .out s1 (.error e)
    | .ok s2 =>
      match dev.draw_res with
      | .error e => .out s2 (.error e)
      | .ok _ =>
        match update_timers dev s2 with
        | (s3, .error e) => .out s3 (.error e)
        | (s3, .ok _) =>
          let s4 := { s3 with keyboard := dev.kb_new }
          .out s4 (.ok (if dev.kb_exit then .Exit else .Continue))

/-- `Chip8::load_program`: `(&mut self.memory[self.program_counter..]).write_all(&rom)`.
The slice writer copies as many leading bytes of `rom` as fit and
`write_all` returns `Err(WriteZero)` (converted to `UnableToLoadProgram`
by the `From<std::io::Error>` impl) when the capacity is exceeded, so on
failure the first `capacity` bytes have already been written. The state
is returned alongside the `Result` because the method takes `&mut self`. -/
def load_program (s : Chip8) (rom : List Nat) : RRes (Chip8 × Except Chip8Error Unit) :=
  if s.program_counter ≤ s.memory.length then
    let cap := s.memory.length - s.program_counter
    let m := s.memory.take s.program_counter ++ rom.take cap
      ++ s.memory.drop (s.program_counter + rom.length)
    pure ({ s with memory := m },
      if rom.length ≤ cap then .ok () else .error .UnableToLoadProgram)
  else .panicked

/-! ### Concrete fixtures and observation helpers -/

/-- Devices behaving like the mocks in the crate's test module: the number
source yields 1, drawing and audio succeed, the next key press is 1. -/
def dev0 : Devices :=
  { rand := .ok 1
    draw_res := .ok ()
    play_res := .ok ()
    next_key := 1
    kb_new := List.replicate 16 0
    kb_exit := false }

/-- A small concrete state: registers and stack present (16 entries each),
program counter at 0x200; memory, graphics and keyboard left empty where a
claim does not touch them. -/
def base : Chip8 :=
  { delay_timer := 0
    graphics := []
    index_register := 0
    keyboard := []
    memory := []
    opcode := 0
    program_counter := 0x200
    sound_timer := 0
    stack := List.replicate 16 0
    stack_pointer := 0
    v_registers := List.replicate 16 0 }

/-- The 16-bit opcode values matched by no arm of the `match self.opcode`
in `interpret_opcode`: a leading nibble of 0 without being 00E0/00EE, an
8XYN with N outside {0..7, E}, an EXNN with NN outside {9E, A1}, or an
FXNN with NN outside {07, 0A, 15, 18, 1E, 29, 33, 55, 65}. Every other
value falls inside one of the (whole-range) dispatch arms. -/
def unmatched (op : Nat) : Prop :=
  (op ≤ 0x0FFF ∧ op ≠ 0x00E0 ∧ op ≠ 0x00EE) ∨
  (0x8000 ≤ op ∧ op ≤ 0x8FFF ∧ ¬(op % 16 < 8 ∨ op % 16 = 0xE)) ∨
  (0xE000 ≤ op ∧ op ≤ 0xEFFF ∧ op % 256 ≠ 0x9E ∧ op % 256 ≠ 0xA1) ∨
  (0xF000 ≤ op ∧ op ≤ 0xFFFF ∧
    ¬(op % 256 = 0x07 ∨ op % 256 = 0x0A ∨ op % 256 = 0x15 ∨ op % 256 = 0x18 ∨
      op % 256 = 0x1E ∨ op % 256 = 0x29 ∨ op % 256 = 0x33 ∨ op % 256 = 0x55 ∨
      op % 256 = 0x65))

instance (op : Nat) : Decidable (unmatched op) := by
  unfold unmatched
  infer_instance

/-- The skip instructions: 3XNN, 4XNN, 5XYN, 9XYN, EX9E, EXA1 (the 5- and
9-families cover their whole range in the dispatcher). -/
def isSkip (op : Nat) : Prop :=
  (0x3000 ≤ op ∧ op ≤ 0x3FFF) ∨ (0x4000 ≤ op ∧ op ≤ 0x4FFF) ∨
  (0x5000 ≤ op ∧ op ≤ 0x5FFF) ∨ (0x9000 ≤ op ∧ op ≤ 0x9FFF) ∨
  (0xE000 ≤ op ∧ op ≤ 0xEFFF ∧ (op % 256 = 0x9E ∨ op % 256 = 0xA1))

instance (op : Nat) : Decidable (isSkip op) := by
  unfold isSkip
  infer_instance

/-- The condition of the skip instruction held in `s.opcode`, exactly as the
handlers test it: register (or keyboard-cell) values read off the state. -/
def skipCond (s : Chip8) : Prop :=
  (0x3000 ≤ s.opcode ∧ s.opcode ≤ 0x3FFF ∧
    s.v_registers.getD (s.opcode / 256 % 16) 0 = s.opcode % 256) ∨
  (0x4000 ≤ s.opcode ∧ s.opcode ≤ 0x4FFF ∧
    s.v_registers.getD (s.opcode / 256 % 16) 0 ≠ s.opcode % 256) ∨
  (0x5000 ≤ s.opcode ∧ s.opcode ≤ 0x5FFF ∧
    s.v_registers.getD (s.opcode / 256 % 16) 0 =
      s.v_registers.getD (s.opcode / 16 % 16) 0) ∨
  (0x9000 ≤ s.opcode ∧ s.opcode ≤ 0x9FFF ∧
    s.v_registers.getD (s.opcode / 256 % 16) 0 ≠
      s.v_registers.getD (s.opcode / 16 % 16) 0) ∨
  (0xE000 ≤ s.opcode ∧ s.opcode ≤ 0xEFFF ∧ s.opcode % 256 = 0x9E ∧
    s.keyboard.getD (s.v_registers.getD (s.opcode / 256 % 16) 0) 0 = 1) ∨
  (0xE000 ≤ s.opcode ∧ s.opcode ≤ 0xEFFF ∧ s.opcode % 256 = 0xA1 ∧
    s.keyboard.getD (s.v_registers.getD (s.opcode / 256 % 16) 0) 0 = 0)

instance (s : Chip8) : Decidable (skipCond s) := by
  unfold skipCond
  infer_instance

/-- State with one return address 0x300 on the stack. -/
def c1s : Chip8 :=
  { base with stack_pointer := 1, stack := (List.replicate 16 0).set 0 0x300 }

/-- State whose current opcode is the jump 0x1234. -/
def c1w : Chip8 := { base with opcode := 0x1234 }

/-- `c1w` after executing the jump. -/
def c1wt : Chip8 := { c1w with program_counter := 0x234 }

/-- State with `V[4] = 0x11`, `V[5] = 0x20` (the literal of the claim on 8XY7). -/
def s2c : Chip8 :=
  { base with v_registers := ((List.replicate 16 0).set 4 0x11).set 5 0x20 }

/-- State for the draw counterexample: `I = 0`, a two-row sprite `0x80, 0x80`
in memory, and the framebuffer cell (0,0) already set, so the first drawn
bit collides and the second does not. -/
def s3c : Chip8 :=
  { base with memory := [0x80, 0x80], graphics := (List.replicate 2048 0).set 0 1 }

/-- State with `V[0] = 1` and `PC = 0x200` (the BNNN literal). -/
def s4c : Chip8 :=
  { base with v_registers := (List.replicate 16 0).set 0 1 }

/-- State with `V[1] = 10` (the FX29 literal from the crate's own test). -/
def s5c : Chip8 :=
  { base with v_registers := (List.replicate 16 0).set 1 10 }

/-- State about to execute 00EE with one entry on the stack. -/
def c7w : Chip8 :=
  { base with opcode := 0x00EE, stack_pointer := 1 }

/-- A fresh-sized memory (4096 zeroed bytes) with `PC = 0x200`. -/
def s8c : Chip8 :=
  { base with memory := List.replicate 4096 0 }

/-- A 3585-byte program, one byte longer than the 3584-byte capacity. -/
def rom8 : List Nat := List.replicate 3585 171

/-- Devices whose graphics sink fails. -/
def devD : Devices := { dev0 with draw_res := .error (.GraphicsError "boom") }

/-- State whose next fetched instruction is 0x6012 (`V[0] = 0x12`), with the
program counter over the two opcode bytes. -/
def s10c : Chip8 :=
  { base with memory := [0x60, 0x12], program_counter := 0 }

/-- `s10c` after executing the fetched 0x6012. -/
def s10t : Chip8 :=
  { s10c with
    opcode := 0x6012
    v_registers := (List.replicate 16 0).set 0 0x12
    program_counter := 2 }

/-- Observe register `i` of an execution result. -/
def rvreg (r : RRes Chip8) (i : Nat) : Option Nat :=
  match r with
  | .ok s => s.v_registers.get? i
  | _ => none

/-- Observe the program counter of an execution result. -/
def rpc (r : RRes Chip8) : Option Nat :=
  match r with
  | .ok s => some s.program_counter
  | _ => none

/-- Observe the index register of an execution result. -/
def ridx (r : RRes Chip8) : Option Nat :=
  match r with
  | .ok s => some s.index_register
  | _ => none

/-- Observe framebuffer cell `i` of an execution result. -/
def rgfx (r : RRes Chip8) (i : Nat) : Option Nat :=
  match r with
  | .ok s => s.graphics.get? i
  | _ => none

/-- Observe the `Result` of a `load_program` call: `some none` for `Ok`,
`some (some e)` for `Err(e)`, `none` for a panic. -/
def lpRes (r : RRes (Chip8 × Except Chip8Error Unit)) : Option (Option Chip8Error) :=
  match r with
  | .ok (_, .ok _) => some none
  | .ok (_, .error e) => some (some e)
  | _ => none

/-- Observe memory cell `i` of the state after a `load_program` call. -/
def lpMem (r : RRes (Chip8 × Except Chip8Error Unit)) (i : Nat) : Option Nat :=
  match r with
  | .ok (t, _) => t.memory.get? i
  | _ => none

/-! ## Helper lemmas -/

set_option maxRecDepth 20000

theorem ite_no {c : Prop} [inst : Decidable c] (hnc : ¬c) {α : Sort u}
    {t e : α} : (if c then t else e) = e := if_neg hnc

theorem ite_yes {c : Prop} [inst : Decidable c] (hc : c) {α : Sort u}
    {t e : α} : (if c then t else e) = t := if_pos hc

theorem rset_eq (l : List Nat) (i v : Nat) :
    rset l i v = if i < l.length then .ok (l.set i v) else .panicked := by
  induction l generalizing i with
  | nil => simp [rset]
  | cons h t ih =>
    cases i with
    | zero => simp [rset]
    | succ j =>
      simp only [rset, ih, List.length_cons, List.set]
      by_cases hj : j < t.length
      · simp [hj, RRes.bind, Nat.succ_lt_succ hj]
      · simp [hj, RRes.bind, fun hc => hj (Nat.lt_of_succ_lt_succ hc)]

theorem rres_bind_ok {α β : Type} {x : RRes α} {f : α → RRes β} {b : β}
    (h : x >>= f = .ok b) : ∃ a, x = .ok a ∧ f a = .ok b := by
  cases x with
  | ok a => exact ⟨a, rfl, h⟩
  | panicked => exact absurd h (by simp [Bind.bind, RRes.bind])
  | err e => exact absurd h (by simp [Bind.bind, RRes.bind])

theorem rres_bind_ok_iff {α β : Type} {x : RRes α} {f : α → RRes β} {b : β} :
    x >>= f = .ok b ↔ ∃ a, x = .ok a ∧ f a = .ok b := by
  constructor
  · exact rres_bind_ok
  · rintro ⟨a, rfl, hf⟩
    exact hf

theorem rget_ok {l : List Nat} {i v : Nat} (h : rget l i = .ok v) :
    l.get? i = some v := by
  unfold rget at h
  cases hg : l.get? i with
  | none => rw [hg] at h; cases h
  | some w => rw [hg] at h; cases h; rfl

theorem rget_ok_getD {l : List Nat} {i v : Nat} (h : rget l i = .ok v) :
    l.getD i 0 = v := by
  have h2 : l[i]? = some v := by rw [← List.get?_eq_getElem?]; exact rget_ok h
  rw [List.getD_eq_getElem?_getD, h2]
  rfl

theorem rget_lt {l : List Nat} {i : Nat} (h : i < l.length) :
    rget l i = .ok (l.getD i 0) := by
  unfold rget
  rw [List.get?_eq_getElem?, List.getElem?_eq_getElem h, List.getD_eq_getElem l 0 h]

theorem pure_ok {α : Type} (a : α) : (pure a : RRes α) = .ok a := rfl

theorem cadd16_ok {a b c : Nat} (h : cadd16 a b = .ok c) : c = a + b := by
  unfold cadd16 at h
  split at h
  · cases h; rfl
  · cases h

theorem csub_ok {a b c : Nat} (h : csub a b = .ok c) : c = a - b := by
  unfold csub at h
  split at h
  · cases h; rfl
  · cases h

theorem dispatch_arm_E0 (dev : Devices) {s : Chip8} (h : s.opcode = 0x00E0) :
    dispatch dev s = pure (clear_display s) := by
  unfold dispatch
  rw [ite_yes h]

theorem dispatch_arm_EE (dev : Devices) {s : Chip8} (h : s.opcode = 0x00EE) :
    dispatch dev s = return_from_routine s := by
  unfold dispatch
  rw [ite_no (by omega), ite_yes h]

theorem dispatch_arm_1 (dev : Devices) {s : Chip8}
    (h : 0x1000 ≤ s.opcode ∧ s.opcode ≤ 0x1FFF) :
    dispatch dev s = pure (jump_to_address (s.opcode % 4096) s) := by
  obtain ⟨h1, h2⟩ := h
  unfold dispatch
  rw [ite_no (by omega), ite_no (by omega), ite_yes ⟨h1, h2⟩]

theorem dispatch_arm_2 (dev : Devices) {s : Chip8}
    (h : 0x2000 ≤ s.opcode ∧ s.opcode ≤ 0x2FFF) :
    dispatch dev s = jump_to_routine (s.opcode % 4096) s := by
  obtain ⟨h1, h2⟩ := h
  unfold dispatch
  rw [ite_no (by omega), ite_no (by omega), ite_no (by omega), ite_yes ⟨h1, h2⟩]

theorem dispatch_arm_3 (dev : Devices) {s : Chip8}
    (h : 0x3000 ≤ s.opcode ∧ s.opcode ≤ 0x3FFF) :
    dispatch dev s =
      skip_instruction_if_vx_equals_nn (s.opcode / 256 % 16) (s.opcode % 256) s := by
  obtain ⟨h1, h2⟩ := h
  unfold dispatch
  rw [ite_no (by omega), ite_no (by omega), ite_no (by omega), ite_no (by omega),
    ite_yes ⟨h1, h2⟩]

theorem dispatch_arm_4 (dev : Devices) {s : Chip8}
    (h : 0x4000 ≤ s.opcode ∧ s.opcode ≤ 0x4FFF) :
    dispatch dev s =
      skip_instruction_if_vx_not_equals_nn (s.opcode / 256 % 16) (s.opcode % 256) s := by
  obtain ⟨h1, h2⟩ := h
  unfold dispatch
  rw [ite_no (by omega), ite_no (by omega), ite_no (by omega), ite_no (by omega),
    ite_no (by omega), ite_yes ⟨h1, h2⟩]

theorem dispatch_arm_5 (dev : Devices) {s : Chip8}
    (h : 0x5000 ≤ s.opcode ∧ s.opcode ≤ 0x5FFF) :
    dispatch dev s =
      skip_instruction_if_vx_equals_vy (s.opcode / 256 % 16) (s.opcode / 16 % 16) s := by
  obtain ⟨h1, h2⟩ := h
  unfold dispatch
  rw [ite_no (by omega), ite_no (by omega), ite_no (by omega), ite_no (by omega),
    ite_no (by omega), ite_no (by omega), ite_yes ⟨h1, h2⟩]

theorem dispatch_arm_6 (dev : Devices) {s : Chip8}
    (h : 0x6000 ≤ s.opcode ∧ s.opcode ≤ 0x6FFF) :
    dispatch dev s = set_vx_to_nn (s.opcode / 256 % 16) (s.opcode % 256) s := by
  obtain ⟨h1, h2⟩ := h
  unfold dispatch
  rw [ite_no (by omega), ite_no (by omega), ite_no (by omega), ite_no (by omega),
    ite_no (by omega), ite_no (by omega), ite_no (by omega), ite_yes ⟨h1, h2⟩]

theorem dispatch_arm_7 (dev : Devices) {s : Chip8}
    (h : 0x7000 ≤ s.opcode ∧ s.opcode ≤ 0x7FFF) :
    dispatch dev s = add_nn_to_vx (s.opcode / 256 % 16) (s.opcode % 256) s := by
  obtain ⟨h1, h2⟩ := h
  unfold dispatch
  rw [ite_no (by omega), ite_no (by omega), ite_no (by omega), ite_no (by omega),
    ite_no (by omega), ite_no (by omega), ite_no (by omega), ite_no (by omega),
    ite_yes ⟨h1, h2⟩]

theorem dispatch_arm_9 (dev : Devices) {s : Chip8}
    (h : 0x9000 ≤ s.opcode ∧ s.opcode ≤ 0x9FFF) :
    dispatch dev s =
      skip_instruction_if_vx_not_equals_vy (s.opcode / 256 % 16) (s.opcode / 16 % 16) s := by
  obtain ⟨h1, h2⟩ := h
  unfold dispatch
  rw [ite_no (by omega), ite_no (by omega), ite_no (by omega), ite_no (by omega),
    ite_no (by omega), ite_no (by omega), ite_no (by omega), ite_no (by omega),
    ite_no (by omega), ite_no (by omega), ite_yes ⟨h1, h2⟩]

theorem dispatch_arm_A (dev : Devices) {s : Chip8}
    (h : 0xA000 ≤ s.opcode ∧ s.opcode ≤ 0xAFFF) :
    dispatch dev s = pure (set_index_register_to_nnn (s.opcode % 4096) s) := by
  obtain ⟨h1, h2⟩ := h
  unfold dispatch
  rw [ite_no (by omega), ite_no (by omega), ite_no (by omega), ite_no (by omega),
    ite_no (by omega), ite_no (by omega), ite_no (by omega), ite_no (by omega),
    ite_no (by omega), ite_no (by omega), ite_no (by omega), ite_yes ⟨h1, h2⟩]

theorem dispatch_arm_B (dev : Devices) {s : Chip8}
    (h : 0xB000 ≤ s.opcode ∧ s.opcode ≤ 0xBFFF) :
    dispatch dev s = jump_to_address_nnn_plus_v0 (s.opcode % 4096) s := by
  obtain ⟨h1, h2⟩ := h
  unfold dispatch
  rw [ite_no (by omega), ite_no (by omega), ite_no (by omega), ite_no (by omega),
    ite_no (by omega), ite_no (by omega), ite_no (by omega), ite_no (by omega),
    ite_no (by omega), ite_no (by omega), ite_no (by omega), ite_no (by omega),
    ite_yes ⟨h1, h2⟩]

theorem dispatch_arm_C (dev : Devices) {s : Chip8}
    (h : 0xC000 ≤ s.opcode ∧ s.opcode ≤ 0xCFFF) :
    dispatch dev s =
      set_vx_to_random_number_bitwise_and_nn dev (s.opcode / 256 % 16) (s.opcode % 256) s := by
  obtain ⟨h1, h2⟩ := h
  unfold dispatch
  rw [ite_no (by omega), ite_no (by omega), ite_no (by omega), ite_no (by omega),
    ite_no (by omega), ite_no (by omega), ite_no (by omega), ite_no (by omega),
    ite_no (by omega), ite_no (by omega), ite_no (by omega), ite_no (by omega),
    ite_no (by omega), ite_yes ⟨h1, h2⟩]

theorem dispatch_arm_D (dev : Devices) {s : Chip8}
    (h : 0xD000 ≤ s.opcode ∧ s.opcode ≤ 0xDFFF) :
    dispatch dev s =
      set_graphics (s.opcode / 256 % 16) (s.opcode / 16 % 16) (s.opcode % 16) s := by
  obtain ⟨h1, h2⟩ := h
  unfold dispatch
  rw [ite_no (by omega), ite_no (by omega), ite_no (by omega), ite_no (by omega),
    ite_no (by omega), ite_no (by omega), ite_no (by omega), ite_no (by omega),
    ite_no (by omega), ite_no (by omega), ite_no (by omega), ite_no (by omega),
    ite_no (by omega), ite_no (by omega), ite_yes ⟨h1, h2⟩]

theorem dispatch_arm_8 (dev : Devices) {s : Chip8}
    (h : 0x8000 ≤ s.opcode ∧ s.opcode ≤ 0x8FFF) :
    dispatch dev s =
      (if s.opcode % 16 = 0x0 then
        sets_vx_to_vy (s.opcode / 256 % 16) (s.opcode / 16 % 16) s
      else if s.opcode % 16 = 0x1 then
        sets_vx_to_vx_bitwise_or_vy (s.opcode / 256 % 16) (s.opcode / 16 % 16) s
      else if s.opcode % 16 = 0x2 then
        sets_vx_to_vx_bitwise_and_vy (s.opcode / 256 % 16) (s.opcode / 16 % 16) s
      else if s.opcode % 16 = 0x3 then
        sets_vx_to_vx_bitwise_xor_vy (s.opcode / 256 % 16) (s.opcode / 16 % 16) s
      else if s.opcode % 16 = 0x4 then
        adds_vy_to_vx_setting_vf_on_borrow (s.opcode / 256 % 16) (s.opcode / 16 % 16) s
      else if s.opcode % 16 = 0x5 then
        subtracts_vy_from_vx_setting_vf_on_borrow (s.opcode / 256 % 16) (s.opcode / 16 % 16) s
      else if s.opcode % 16 = 0x6 then
        store_lsb_of_vx_in_vf_shifting_vx_by_1 (s.opcode / 256 % 16) s
      else if s.opcode % 16 = 0x7 then
        set_vx_to_vy_minus_vx_setting_vf_on_borrow (s.opcode / 256 % 16) (s.opcode / 16 % 16) s
      else if s.opcode % 16 = 0xE then
        store_msb_of_vx_in_vf_shifting_vx_by_1 (s.opcode / 256 % 16) s
      else .err (.InvalidOpcode s.opcode)) := by
  obtain ⟨h1, h2⟩ := h
  unfold dispatch
  rw [ite_no (by omega), ite_no (by omega), ite_no (by omega), ite_no (by omega),
    ite_no (by omega), ite_no (by omega), ite_no (by omega), ite_no (by omega),
    ite_no (by omega), ite_yes ⟨h1, h2⟩]

theorem dispatch_arm_E9E (dev : Devices) {s : Chip8}
    (h : 0xE000 ≤ s.opcode ∧ s.opcode ≤ 0xEFFF) (hnn : s.opcode % 256 = 0x9E) :
    dispatch dev s = skips_instruction_if_vx_key_is_pressed (s.opcode / 256 % 16) s := by
  obtain ⟨h1, h2⟩ := h
  unfold dispatch
  rw [ite_no (by omega), ite_no (by omega), ite_no (by omega), ite_no (by omega),
    ite_no (by omega), ite_no (by omega), ite_no (by omega), ite_no (by omega),
    ite_no (by omega), ite_no (by omega), ite_no (by omega), ite_no (by omega),
    ite_no (by omega), ite_no (by omega), ite_no (by omega), ite_yes ⟨h1, h2⟩,
    ite_yes hnn]

theorem dispatch_arm_EA1 (dev : Devices) {s : Chip8}
    (h : 0xE000 ≤ s.opcode ∧ s.opcode ≤ 0xEFFF) (hnn : s.opcode % 256 = 0xA1) :
    dispatch dev s = skips_instruction_if_vx_key_is_not_pressed (s.opcode / 256 % 16) s := by
  obtain ⟨h1, h2⟩ := h
  unfold dispatch
  rw [ite_no (by omega), ite_no (by omega), ite_no (by omega), ite_no (by omega),
    ite_no (by omega), ite_no (by omega), ite_no (by omega), ite_no (by omega),
    ite_no (by omega), ite_no (by omega), ite_no (by omega), ite_no (by omega),
    ite_no (by omega), ite_no (by omega), ite_no (by omega), ite_yes ⟨h1, h2⟩,
    ite_no (by omega), ite_yes hnn]

theorem dispatch_arm_F (dev : Devices) {s : Chip8}
    (h : 0xF000 ≤ s.opcode ∧ s.opcode ≤ 0xFFFF) :
    dispatch dev s =
      (if s.opcode % 256 = 0x07 then sets_vx_to_delay_timer (s.opcode / 256 % 16) s
      else if s.opcode % 256 = 0x0A then sets_vx_to_key_press dev (s.opcode / 256 % 16) s
      else if s.opcode % 256 = 0x15 then sets_delay_timer_to_vx (s.opcode / 256 % 16) s
      else if s.opcode % 256 = 0x18 then sets_sound_timer_to_vx (s.opcode / 256 % 16) s
      else if s.opcode % 256 = 0x1E then adds_vx_to_i (s.opcode / 256 % 16) s
      else if s.opcode % 256 = 0x29 then sets_i_to_vx (s.opcode / 256 % 16) s
      else if s.opcode % 256 = 0x33 then store_bcd_of_vx_from_i (s.opcode / 256 % 16) s
      else if s.opcode % 256 = 0x55 then stores_v0_to_vx_in_memory_from_i (s.opcode / 256 % 16) s
      else if s.opcode % 256 = 0x65 then writes_v0_to_vx_from_memory_i (s.opcode / 256 % 16) s
      else .err (.InvalidOpcode s.opcode)) := by
  obtain ⟨h1, h2⟩ := h
  unfold dispatch
  rw [ite_no (by omega), ite_no (by omega), ite_no (by omega), ite_no (by omega),
    ite_no (by omega), ite_no (by omega), ite_no (by omega), ite_no (by omega),
    ite_no (by omega), ite_no (by omega), ite_no (by omega), ite_no (by omega),
    ite_no (by omega), ite_no (by omega), ite_no (by omega), ite_no (by omega),
    ite_yes ⟨h1, h2⟩]

theorem dispatch_errP (dev : Devices) {s : Chip8}
    (h : unmatched s.opcode ∨ 65536 ≤ s.opcode) :
    dispatch dev s = .err (.InvalidOpcode s.opcode) := by
  unfold dispatch
  obtain (⟨h1, h2, h3⟩ | ⟨h1, h2, h3⟩ | ⟨h1, h2, h3, h4⟩ | ⟨h1, h2, h3⟩) | h1 := h
  · rw [ite_no (by omega), ite_no (by omega), ite_no (by omega), ite_no (by omega),
      ite_no (by omega), ite_no (by omega), ite_no (by omega), ite_no (by omega),
      ite_no (by omega), ite_no (by omega), ite_no (by omega), ite_no (by omega),
      ite_no (by omega), ite_no (by omega), ite_no (by omega), ite_no (by omega),
      ite_no (by omega)]
  · rw [ite_no (by omega), ite_no (by omega), ite_no (by omega), ite_no (by omega),
      ite_no (by omega), ite_no (by omega), ite_no (by omega), ite_no (by omega),
      ite_no (by omega), ite_yes ⟨h1, h2⟩, ite_no (by omega), ite_no (by omega),
      ite_no (by omega), ite_no (by omega), ite_no (by omega), ite_no (by omega),
      ite_no (by omega), ite_no (by omega), ite_no (by omega)]
  · rw [ite_no (by omega), ite_no (by omega), ite_no (by omega), ite_no (by omega),
      ite_no (by omega), ite_no (by omega), ite_no (by omega), ite_no (by omega),
      ite_no (by omega), ite_no (by omega), ite_no (by omega), ite_no (by omega),
      ite_no (by omega), ite_no (by omega), ite_no (by omega), ite_yes ⟨h1, h2⟩,
      ite_no h3, ite_no h4]
  · rw [ite_no (by omega), ite_no (by omega), ite_no (by omega), ite_no (by omega),
      ite_no (by omega), ite_no (by omega), ite_no (by omega), ite_no (by omega),
      ite_no (by omega), ite_no (by omega), ite_no (by omega), ite_no (by omega),
      ite_no (by omega), ite_no (by omega), ite_no (by omega), ite_no (by omega),
      ite_yes ⟨h1, h2⟩, ite_no (by omega), ite_no (by omega), ite_no (by omega),
      ite_no (by omega), ite_no (by omega), ite_no (by omega), ite_no (by omega),
      ite_no (by omega), ite_no (by omega)]
  · rw [ite_no (by omega), ite_no (by omega), ite_no (by omega), ite_no (by omega),
      ite_no (by omega), ite_no (by omega), ite_no (by omega), ite_no (by omega),
      ite_no (by omega), ite_no (by omega), ite_no (by omega), ite_no (by omega),
      ite_no (by omega), ite_no (by omega), ite_no (by omega), ite_no (by omega),
      ite_no (by omega)]

theorem pc_set_vx_to_nn {vx nn : Nat} {s u : Chip8}
    (h : set_vx_to_nn vx nn s = .ok u) : u.program_counter = s.program_counter := by
  unfold set_vx_to_nn at h
  repeat obtain ⟨_, _, h⟩ := rres_bind_ok h
  rw [pure_ok] at h
  cases h
  rfl

theorem pc_add_nn_to_vx {vx nn : Nat} {s u : Chip8}
    (h : add_nn_to_vx vx nn s = .ok u) : u.program_counter = s.program_counter := by
  unfold add_nn_to_vx at h
  repeat obtain ⟨_, _, h⟩ := rres_bind_ok h
  rw [pure_ok] at h
  cases h
  rfl

theorem pc_sets_vx_to_vy {vx vy : Nat} {s u : Chip8}
    (h : sets_vx_to_vy vx vy s = .ok u) : u.program_counter = s.program_counter := by
  unfold sets_vx_to_vy at h
  repeat obtain ⟨_, _, h⟩ := rres_bind_ok h
  rw [pure_ok] at h
  cases h
  rfl

theorem pc_or_vy {vx vy : Nat} {s u : Chip8}
    (h : sets_vx_to_vx_bitwise_or_vy vx vy s = .ok u) :
    u.program_counter = s.program_counter := by
  unfold sets_vx_to_vx_bitwise_or_vy at h
  repeat obtain ⟨_, _, h⟩ := rres_bind_ok h
  rw [pure_ok] at h
  cases h
  rfl

theorem pc_and_vy {vx vy : Nat} {s u : Chip8}
    (h : sets_vx_to_vx_bitwise_and_vy vx vy s = .ok u) :
    u.program_counter = s.program_counter := by
  unfold sets_vx_to_vx_bitwise_and_vy at h
  repeat obtain ⟨_, _, h⟩ := rres_bind_ok h
  rw [pure_ok] at h
  cases h
  rfl

theorem pc_xor_vy {vx vy : Nat} {s u : Chip8}
    (h : sets_vx_to_vx_bitwise_xor_vy vx vy s = .ok u) :
    u.program_counter = s.program_counter := by
  unfold sets_vx_to_vx_bitwise_xor_vy at h
  repeat obtain ⟨_, _, h⟩ := rres_bind_ok h
  rw [pure_ok] at h
  cases h
  rfl

theorem pc_add8 {vx vy : Nat} {s u : Chip8}
    (h : adds_vy_to_vx_setting_vf_on_borrow vx vy s = .ok u) :
    u.program_counter = s.program_counter := by
  unfold adds_vy_to_vx_setting_vf_on_borrow at h
  obtain ⟨y, hy, h⟩ := rres_bind_ok h
  obtain ⟨x, hx, h⟩ := rres_bind_ok h
  dsimp only at h
  split at h <;>
  · repeat obtain ⟨_, _, h⟩ := rres_bind_ok h
    rw [pure_ok] at h
    cases h
    rfl

theorem pc_sub8 {vx vy : Nat} {s u : Chip8}
    (h : subtracts_vy_from_vx_setting_vf_on_borrow vx vy s = .ok u) :
    u.program_counter = s.program_counter := by
  unfold subtracts_vy_from_vx_setting_vf_on_borrow at h
  obtain ⟨y, hy, h⟩ := rres_bind_ok h
  obtain ⟨x, hx, h⟩ := rres_bind_ok h
  dsimp only at h
  split at h <;>
  · repeat obtain ⟨_, _, h⟩ := rres_bind_ok h
    rw [pure_ok] at h
    cases h
    rfl

theorem pc_lsb {vx : Nat} {s u : Chip8}
    (h : store_lsb_of_vx_in_vf_shifting_vx_by_1 vx s = .ok u) :
    u.program_counter = s.program_counter := by
  unfold store_lsb_of_vx_in_vf_shifting_vx_by_1 at h
  repeat obtain ⟨_, _, h⟩ := rres_bind_ok h
  rw [pure_ok] at h
  cases h
  rfl

theorem pc_sub8rev {vx vy : Nat} {s u : Chip8}
    (h : set_vx_to_vy_minus_vx_setting_vf_on_borrow vx vy s = .ok u) :
    u.program_counter = s.program_counter := by
  unfold set_vx_to_vy_minus_vx_setting_vf_on_borrow at h
  obtain ⟨y, hy, h⟩ := rres_bind_ok h
  obtain ⟨x, hx, h⟩ := rres_bind_ok h
  dsimp only at h
  split at h <;>
  · repeat obtain ⟨_, _, h⟩ := rres_bind_ok h
    rw [pure_ok] at h
    cases h
    rfl

theorem pc_msb {vx : Nat} {s u : Chip8}
    (h : store_msb_of_vx_in_vf_shifting_vx_by_1 vx s = .ok u) :
    u.program_counter = s.program_counter := by
  unfold store_msb_of_vx_in_vf_shifting_vx_by_1 at h
  repeat obtain ⟨_, _, h⟩ := rres_bind_ok h
  rw [pure_ok] at h
  cases h
  rfl

theorem pc_rand {dev : Devices} {vx nn : Nat} {s u : Chip8}
    (h : set_vx_to_random_number_bitwise_and_nn dev vx nn s = .ok u) :
    u.program_counter = s.program_counter := by
  unfold set_vx_to_random_number_bitwise_and_nn at h
  cases hr : dev.rand with
  | error e => rw [hr] at h; exact absurd h (by simp)
  | ok r =>
    rw [hr] at h
    repeat obtain ⟨_, _, h⟩ := rres_bind_ok h
    rw [pure_ok] at h
    cases h
    rfl

theorem pc_set_graphics {vx vy n : Nat} {s u : Chip8}
    (h : set_graphics vx vy n s = .ok u) :
    u.program_counter = s.program_counter := by
  unfold set_graphics at h
  repeat obtain ⟨_, _, h⟩ := rres_bind_ok h
  rw [pure_ok] at h
  cases h
  rfl

theorem pc_read_delay {vx : Nat} {s u : Chip8}
    (h : sets_vx_to_delay_timer vx s = .ok u) :
    u.program_counter = s.program_counter := by
  unfold sets_vx_to_delay_timer at h
  repeat obtain ⟨_, _, h⟩ := rres_bind_ok h
  rw [pure_ok] at h
  cases h
  rfl

theorem pc_key_press {dev : Devices} {vx : Nat} {s u : Chip8}
    (h : sets_vx_to_key_press dev vx s = .ok u) :
    u.program_counter = s.program_counter := by
  unfold sets_vx_to_key_press at h
  repeat obtain ⟨_, _, h⟩ := rres_bind_ok h
  rw [pure_ok] at h
  cases h
  rfl

theorem pc_write_delay {vx : Nat} {s u : Chip8}
    (h : sets_delay_timer_to_vx vx s = .ok u) :
    u.program_counter = s.program_counter := by
  unfold sets_delay_timer_to_vx at h
  repeat obtain ⟨_, _, h⟩ := rres_bind_ok h
  rw [pure_ok] at h
  cases h
  rfl

theorem pc_write_sound {vx : Nat} {s u : Chip8}
    (h : sets_sound_timer_to_vx vx s = .ok u) :
    u.program_counter = s.program_counter := by
  unfold sets_sound_timer_to_vx at h
  repeat obtain ⟨_, _, h⟩ := rres_bind_ok h
  rw [pure_ok] at h
  cases h
  rfl

theorem pc_add_i {vx : Nat} {s u : Chip8}
    (h : adds_vx_to_i vx s = .ok u) : u.program_counter = s.program_counter := by
  unfold adds_vx_to_i at h
  repeat obtain ⟨_, _, h⟩ := rres_bind_ok h
  rw [pure_ok] at h
  cases h
  rfl

theorem pc_set_i {vx : Nat} {s u : Chip8}
    (h : sets_i_to_vx vx s = .ok u) : u.program_counter = s.program_counter := by
  unfold sets_i_to_vx at h
  repeat obtain ⟨_, _, h⟩ := rres_bind_ok h
  rw [pure_ok] at h
  cases h
  rfl

theorem pc_bcd {vx : Nat} {s u : Chip8}
    (h : store_bcd_of_vx_from_i vx s = .ok u) :
    u.program_counter = s.program_counter := by
  unfold store_bcd_of_vx_from_i at h
  repeat obtain ⟨_, _, h⟩ := rres_bind_ok h
  rw [pure_ok] at h
  cases h
  rfl

theorem pc_store_regs {vx : Nat} {s u : Chip8}
    (h : stores_v0_to_vx_in_memory_from_i vx s = .ok u) :
    u.program_counter = s.program_counter := by
  unfold stores_v0_to_vx_in_memory_from_i at h
  repeat obtain ⟨_, _, h⟩ := rres_bind_ok h
  rw [pure_ok] at h
  cases h
  rfl

theorem pc_load_regs {vx : Nat} {s u : Chip8}
    (h : writes_v0_to_vx_from_memory_i vx s = .ok u) :
    u.program_counter = s.program_counter := by
  unfold writes_v0_to_vx_from_memory_i at h
  repeat obtain ⟨_, _, h⟩ := rres_bind_ok h
  rw [pure_ok] at h
  cases h
  rfl

theorem pc_call {nnn : Nat} {s u : Chip8}
    (h : jump_to_routine nnn s = .ok u) : u.program_counter = nnn := by
  unfold jump_to_routine at h
  repeat obtain ⟨_, _, h⟩ := rres_bind_ok h
  rw [pure_ok] at h
  cases h
  rfl

theorem pc_return {s u : Chip8} (h : return_from_routine s = .ok u) :
    u.program_counter = s.stack.getD (s.stack_pointer - 1) 0 := by
  unfold return_from_routine at h
  obtain ⟨sp, hsp, h⟩ := rres_bind_ok h
  obtain ⟨v, hv, h⟩ := rres_bind_ok h
  rw [pure_ok] at h
  cases h
  have hspv := csub_ok hsp
  subst hspv
  exact (rget_ok_getD hv).symm

theorem pc_bnnn {nnn : Nat} {s u : Chip8}
    (h : jump_to_address_nnn_plus_v0 nnn s = .ok u) :
    u.program_counter = s.program_counter + (nnn + s.v_registers.getD 0 0) := by
  unfold jump_to_address_nnn_plus_v0 at h
  obtain ⟨v0, hv0, h⟩ := rres_bind_ok h
  obtain ⟨x, hx, h⟩ := rres_bind_ok h
  obtain ⟨pc, hpc, h⟩ := rres_bind_ok h
  rw [pure_ok] at h
  cases h
  dsimp only
  rw [rget_ok_getD hv0]
  rw [cadd16_ok hpc, cadd16_ok hx]

theorem advance_pc {lead : Nat} {u t : Chip8} (h : advance lead u = .ok t) :
    (¬(lead = 0x1 ∨ lead = 0x2 ∨ lead = 0xB) →
      t.program_counter = u.program_counter + 2) ∧
    ((lead = 0x1 ∨ lead = 0x2 ∨ lead = 0xB) → t = u) := by
  unfold advance at h
  split at h
  · rename_i hc
    rw [pure_ok] at h
    cases h
    exact ⟨fun hn => absurd hc hn, fun _ => rfl⟩
  · rename_i hc
    obtain ⟨pc2, hpc2, h⟩ := rres_bind_ok h
    rw [pure_ok] at h
    cases h
    exact ⟨fun _ => by dsimp only; rw [cadd16_ok hpc2], fun hy => absurd hy hc⟩

theorem pc_skip3 {vx nn : Nat} {s u : Chip8}
    (h : skip_instruction_if_vx_equals_nn vx nn s = .ok u) :
    (s.v_registers.getD vx 0 = nn % 256 →
      u.program_counter = s.program_counter + 2) ∧
    (s.v_registers.getD vx 0 ≠ nn % 256 →
      u.program_counter = s.program_counter) := by
  unfold skip_instruction_if_vx_equals_nn at h
  obtain ⟨x, hx, h⟩ := rres_bind_ok h
  rw [rget_ok_getD hx]
  split at h
  · rename_i hc
    obtain ⟨pc2, hpc2, h⟩ := rres_bind_ok h
    rw [pure_ok] at h
    cases h
    exact ⟨fun _ => by dsimp only; rw [cadd16_ok hpc2], fun hne => absurd hc hne⟩
  · rename_i hc
    rw [pure_ok] at h
    cases h
    exact ⟨fun heq => absurd heq hc, fun _ => rfl⟩

theorem pc_skip4 {vx nn : Nat} {s u : Chip8}
    (h : skip_instruction_if_vx_not_equals_nn vx nn s = .ok u) :
    (s.v_registers.getD vx 0 ≠ nn % 256 →
      u.program_counter = s.program_counter + 2) ∧
    (s.v_registers.getD vx 0 = nn % 256 →
      u.program_counter = s.program_counter) := by
  unfold skip_instruction_if_vx_not_equals_nn at h
  obtain ⟨x, hx, h⟩ := rres_bind_ok h
  rw [rget_ok_getD hx]
  split at h
  · rename_i hc
    obtain ⟨pc2, hpc2, h⟩ := rres_bind_ok h
    rw [pure_ok] at h
    cases h
    exact ⟨fun _ => by dsimp only; rw [cadd16_ok hpc2], fun heq => absurd heq hc⟩
  · rename_i hc
    rw [pure_ok] at h
    cases h
    rw [not_not] at hc
    exact ⟨fun hne => absurd hc hne, fun _ => rfl⟩

theorem pc_skip5 {vx vy : Nat} {s u : Chip8}
    (h : skip_instruction_if_vx_equals_vy vx vy s = .ok u) :
    (s.v_registers.getD vx 0 = s.v_registers.getD vy 0 →
      u.program_counter = s.program_counter + 2) ∧
    (s.v_registers.getD vx 0 ≠ s.v_registers.getD vy 0 →
      u.program_counter = s.program_counter) := by
  unfold skip_instruction_if_vx_equals_vy at h
  obtain ⟨x, hx, h⟩ := rres_bind_ok h
  obtain ⟨y, hy, h⟩ := rres_bind_ok h
  rw [rget_ok_getD hx, rget_ok_getD hy]
  split at h
  · rename_i hc
    obtain ⟨pc2, hpc2, h⟩ := rres_bind_ok h
    rw [pure_ok] at h
    cases h
    exact ⟨fun _ => by dsimp only; rw [cadd16_ok hpc2], fun hne => absurd hc hne⟩
  · rename_i hc
    rw [pure_ok] at h
    cases h
    exact ⟨fun heq => absurd heq hc, fun _ => rfl⟩

theorem pc_skip9 {vx vy : Nat} {s u : Chip8}
    (h : skip_instruction_if_vx_not_equals_vy vx vy s = .ok u) :
    (s.v_registers.getD vx 0 ≠ s.v_registers.getD vy 0 →
      u.program_counter = s.program_counter + 2) ∧
    (s.v_registers.getD vx 0 = s.v_registers.getD vy 0 →
      u.program_counter = s.program_counter) := by
  unfold skip_instruction_if_vx_not_equals_vy at h
  obtain ⟨y, hy, h⟩ := rres_bind_ok h
  obtain ⟨x, hx, h⟩ := rres_bind_ok h
  rw [rget_ok_getD hx, rget_ok_getD hy]
  split at h
  · rename_i hc
    obtain ⟨pc2, hpc2, h⟩ := rres_bind_ok h
    rw [pure_ok] at h
    cases h
    exact ⟨fun _ => by dsimp only; rw [cadd16_ok hpc2], fun heq => absurd heq hc⟩
  · rename_i hc
    rw [pure_ok] at h
    cases h
    rw [not_not] at hc
    exact ⟨fun hne => absurd hc hne, fun _ => rfl⟩

theorem pc_skip_pressed {vx : Nat} {s u : Chip8}
    (h : skips_instruction_if_vx_key_is_pressed vx s = .ok u) :
    (s.keyboard.getD (s.v_registers.getD vx 0) 0 = 1 →
      u.program_counter = s.program_counter + 2) ∧
    (s.keyboard.getD (s.v_registers.getD vx 0) 0 ≠ 1 →
      u.program_counter = s.program_counter) := by
  unfold skips_instruction_if_vx_key_is_pressed at h
  obtain ⟨x, hx, h⟩ := rres_bind_ok h
  obtain ⟨k, hk, h⟩ := rres_bind_ok h
  rw [rget_ok_getD hx, rget_ok_getD hk]
  split at h
  · rename_i hc
    obtain ⟨pc2, hpc2, h⟩ := rres_bind_ok h
    rw [pure_ok] at h
    cases h
    exact ⟨fun _ => by dsimp only; rw [cadd16_ok hpc2], fun hne => absurd hc hne⟩
  · rename_i hc
    rw [pure_ok] at h
    cases h
    exact ⟨fun heq => absurd heq hc, fun _ => rfl⟩

theorem pc_skip_not_pressed {vx : Nat} {s u : Chip8}
    (h : skips_instruction_if_vx_key_is_not_pressed vx s = .ok u) :
    (s.keyboard.getD (s.v_registers.getD vx 0) 0 = 0 →
      u.program_counter = s.program_counter + 2) ∧
    (s.keyboard.getD (s.v_registers.getD vx 0) 0 ≠ 0 →
      u.program_counter = s.program_counter) := by
  unfold skips_instruction_if_vx_key_is_not_pressed at h
  obtain ⟨x, hx, h⟩ := rres_bind_ok h
  obtain ⟨k, hk, h⟩ := rres_bind_ok h
  rw [rget_ok_getD hx, rget_ok_getD hk]
  split at h
  · rename_i hc
    obtain ⟨pc2, hpc2, h⟩ := rres_bind_ok h
    rw [pure_ok] at h
    cases h
    exact ⟨fun _ => by dsimp only; rw [cadd16_ok hpc2], fun hne => absurd hc hne⟩
  · rename_i hc
    rw [pure_ok] at h
    cases h
    exact ⟨fun heq => absurd heq hc, fun _ => rfl⟩

/-! ## The claims -/

/-- C2 (code evaluation at the claim's own literal): executing opcode
0x8457 from `V[4] = 0x11`, `V[5] = 0x20` yields `V[4] = 0xF1` and `VF = 1` —
the handler computes the wrapping difference `V[X] − V[Y]`, not
`V[Y] − V[X]` as its own name `set_vx_to_vy_minus_vx_setting_vf_on_borrow`
and the claim state, which would give `V[4] = 0x0F`, `VF = 0`. -/
theorem c2_code_eval :
    rvreg (execOp dev0 0x8457 s2c) 4 = some 0xF1 ∧
    rvreg (execOp dev0 0x8457 s2c) 15 = some 1 := by decide

/-- C3 (code evaluation): drawing the two-row sprite `0x80, 0x80` at (0,0)
with the framebuffer cell (0,0) already set collides on the first row
(the cell is toggled from 1 to 0), yet the final `VF` is 0: the loop body
overwrites `VF` with `if collision then 1 else 0` on every drawn bit, so
the last drawn bit wins — contradicting the claim that `VF = 1` whenever
at least one collision occurred. -/
theorem c3_code_eval :
    s3c.graphics.get? 0 = some 1 ∧
    rgfx (execOp dev0 0xD002 s3c) 0 = some 0 ∧
    rgfx (execOp dev0 0xD002 s3c) 64 = some 1 ∧
    rvreg (execOp dev0 0xD002 s3c) 15 = some 0 := by decide

/-- C4 (code evaluation at the claim's literal): executing 0xB100 from
`PC = 0x200`, `V[0] = 1` leaves `PC = 0x301 = 0x200 + 0x100 + 1`: the
handler does `program_counter += NNN + V[0]`, not `PC = NNN + V[0]`
(which would give 0x101) as the claim and spec state. -/
theorem c4_code_eval : rpc (execOp dev0 0xB100 s4c) = some 0x301 := by decide

/-- C5 (code evaluation at the crate's own test literal): executing 0xF129
from `V[1] = 10` sets `I = 10`: the handler assigns `I = V[X]` with no
`× 5` scaling, while the claim (font glyph address) requires `I = 50`. -/
theorem c5_code_eval : ridx (execOp dev0 0xF129 s5c) = some 10 := by decide

/-- C1 (counterexample): executing 0x00EE from a state with `stack[0] = 0x300`,
`stack_pointer = 1` leaves `PC = 0x302`, not 0x300: the leading nibble 0 is
not in the `jumping_operations` list `[0x1, 0x2, 0xB]`, so the return
instruction receives the post-dispatch `+ 2` — the claim's "return sets PC
directly with no further advance" is false on the code. -/
theorem c1_counterexample :
    rpc (execOp dev0 0x00EE c1s) = some 0x302 ∧ (0x302 : Nat) ≠ 0x300 := by decide

/-- C1 (amended): for every state and fetched opcode whose interpretation
succeeds, the program counter after the step is: NNN for a jump 1NNN or
call 2NNN (no further advance); the old PC plus NNN + V[0] for BNNN (an
additive jump, also with no further advance); the popped return address
*plus 2* for 00EE (the return is NOT exempt from the post-dispatch
advance); PC + 4 for a skip instruction whose condition holds and PC + 2
when it does not; and PC + 2 for every other instruction. -/
theorem c1_pc_policy (dev : Devices) (s t : Chip8)
    (h : interpret_opcode dev s = .ok t) :
    (((0x1000 ≤ s.opcode ∧ s.opcode ≤ 0x1FFF) ∨
      (0x2000 ≤ s.opcode ∧ s.opcode ≤ 0x2FFF)) →
      t.program_counter = s.opcode % 4096) ∧
    ((0xB000 ≤ s.opcode ∧ s.opcode ≤ 0xBFFF) →
      t.program_counter =
        s.program_counter + (s.opcode % 4096 + s.v_registers.getD 0 0)) ∧
    (s.opcode = 0x00EE →
      t.program_counter = s.stack.getD (s.stack_pointer - 1) 0 + 2) ∧
    (isSkip s.opcode →
      (skipCond s → t.program_counter = s.program_counter + 4) ∧
      (¬skipCond s → t.program_counter = s.program_counter + 2)) ∧
    (s.opcode / 4096 ≠ 0x1 → s.opcode / 4096 ≠ 0x2 → s.opcode / 4096 ≠ 0xB →
      s.opcode ≠ 0x00EE → ¬isSkip s.opcode →
      t.program_counter = s.program_counter + 2) := by
  unfold interpret_opcode at h
  obtain ⟨u, hdisp, hadv⟩ := rres_bind_ok h
  have hAdv := advance_pc hadv
  refine ⟨?_, ?_, ?_, ?_, ?_⟩
  · rintro (⟨ha, hb⟩ | ⟨ha, hb⟩)
    · rw [dispatch_arm_1 dev ⟨ha, hb⟩, pure_ok] at hdisp
      cases hdisp
      rw [hAdv.2 (by omega)]
      rfl
    · rw [dispatch_arm_2 dev ⟨ha, hb⟩] at hdisp
      rw [hAdv.2 (by omega)]
      exact pc_call hdisp
  · rintro ⟨ha, hb⟩
    rw [dispatch_arm_B dev ⟨ha, hb⟩] at hdisp
    rw [hAdv.2 (by omega)]
    exact pc_bnnn hdisp
  · intro hop
    rw [dispatch_arm_EE dev hop] at hdisp
    rw [hAdv.1 (by omega), pc_return hdisp]
  · intro hsk
    have hnj : ¬(s.opcode / 4096 = 0x1 ∨ s.opcode / 4096 = 0x2 ∨
        s.opcode / 4096 = 0xB) := by
      obtain ⟨ha, hb⟩ | ⟨ha, hb⟩ | ⟨ha, hb⟩ | ⟨ha, hb⟩ | ⟨ha, hb, _⟩ := hsk <;> omega
    rw [hAdv.1 hnj]
    obtain ⟨ha, hb⟩ | ⟨ha, hb⟩ | ⟨ha, hb⟩ | ⟨ha, hb⟩ | ⟨ha, hb, hnn⟩ := hsk
    · rw [dispatch_arm_3 dev ⟨ha, hb⟩] at hdisp
      have hp := pc_skip3 hdisp
      constructor
      · intro hc
        have hcc : s.v_registers.getD (s.opcode / 256 % 16) 0 =
            s.opcode % 256 % 256 := by
          obtain ⟨_, _, h3⟩ | ⟨h4a, _, _⟩ | ⟨h5a, _, _⟩ | ⟨h9a, _, _⟩ |
            ⟨hea, _, _, _⟩ | ⟨hea, _, _, _⟩ := hc
          all_goals omega
        rw [hp.1 hcc]
      · intro hc
        have hcc : s.v_registers.getD (s.opcode / 256 % 16) 0 ≠
            s.opcode % 256 % 256 :=
          fun heq => hc (Or.inl ⟨ha, hb, by omega⟩)
        rw [hp.2 hcc]
    · rw [dispatch_arm_4 dev ⟨ha, hb⟩] at hdisp
      have hp := pc_skip4 hdisp
      constructor
      · intro hc
        have hcc : s.v_registers.getD (s.opcode / 256 % 16) 0 ≠
            s.opcode % 256 % 256 := by
          obtain ⟨h3a, _, _⟩ | ⟨_, _, h4⟩ | ⟨h5a, _, _⟩ | ⟨h9a, _, _⟩ |
            ⟨hea, _, _, _⟩ | ⟨hea, _, _, _⟩ := hc
          all_goals omega
        rw [hp.1 hcc]
      · intro hc
        have hcc : s.v_registers.getD (s.opcode / 256 % 16) 0 =
            s.opcode % 256 % 256 := by
          by_contra hne
          exact hc (Or.inr (Or.inl ⟨ha, hb, by omega⟩))
        rw [hp.2 hcc]
    · rw [dispatch_arm_5 dev ⟨ha, hb⟩] at hdisp
      have hp := pc_skip5 hdisp
      constructor
      · intro hc
        have hcc : s.v_registers.getD (s.opcode / 256 % 16) 0 =
            s.v_registers.getD (s.opcode / 16 % 16) 0 := by
          obtain ⟨h3a, _, _⟩ | ⟨h4a, _, _⟩ | ⟨_, _, h5⟩ | ⟨h9a, _, _⟩ |
            ⟨hea, _, _, _⟩ | ⟨hea, _, _, _⟩ := hc
          all_goals omega
        rw [hp.1 hcc]
      · intro hc
        have hcc : s.v_registers.getD (s.opcode / 256 % 16) 0 ≠
            s.v_registers.getD (s.opcode / 16 % 16) 0 :=
          fun heq => hc (Or.inr (Or.inr (Or.inl ⟨ha, hb, heq⟩)))
        rw [hp.2 hcc]
    · rw [dispatch_arm_9 dev ⟨ha, hb⟩] at hdisp
      have hp := pc_skip9 hdisp
      constructor
      · intro hc
        have hcc : s.v_registers.getD (s.opcode / 256 % 16) 0 ≠
            s.v_registers.getD (s.opcode / 16 % 16) 0 := by
          obtain ⟨h3a, _, _⟩ | ⟨h4a, _, _⟩ | ⟨h5a, _, _⟩ | ⟨_, _, h9⟩ |
            ⟨hea, _, _, _⟩ | ⟨hea, _, _, _⟩ := hc
          all_goals omega
        rw [hp.1 hcc]
      · intro hc
        have hcc : s.v_registers.getD (s.opcode / 256 % 16) 0 =
            s.v_registers.getD (s.opcode / 16 % 16) 0 := by
          by_contra hne
          exact hc (Or.inr (Or.inr (Or.inr (Or.inl ⟨ha, hb, hne⟩))))
        rw [hp.2 hcc]
    · obtain h9e | ha1 := hnn
      · rw [dispatch_arm_E9E dev ⟨ha, hb⟩ h9e] at hdisp
        have hp := pc_skip_pressed hdisp
        constructor
        · intro hc
          have hcc : s.keyboard.getD
              (s.v_registers.getD (s.opcode / 256 % 16) 0) 0 = 1 := by
            obtain ⟨h3a, _, _⟩ | ⟨h4a, _, _⟩ | ⟨h5a, _, _⟩ | ⟨h9a, _, _⟩ |
              ⟨_, _, _, hk⟩ | ⟨_, _, hnn6, _⟩ := hc
            all_goals omega
          rw [hp.1 hcc]
        · intro hc
          have hcc : s.keyboard.getD
              (s.v_registers.getD (s.opcode / 256 % 16) 0) 0 ≠ 1 :=
            fun heq =>
              hc (Or.inr (Or.inr (Or.inr (Or.inr (Or.inl ⟨ha, hb, h9e, heq⟩)))))
          rw [hp.2 hcc]
      · rw [dispatch_arm_EA1 dev ⟨ha, hb⟩ ha1] at hdisp
        have hp := pc_skip_not_pressed hdisp
        constructor
        · intro hc
          have hcc : s.keyboard.getD
              (s.v_registers.getD (s.opcode / 256 % 16) 0) 0 = 0 := by
            obtain ⟨h3a, _, _⟩ | ⟨h4a, _, _⟩ | ⟨h5a, _, _⟩ | ⟨h9a, _, _⟩ |
              ⟨_, _, hnn5, _⟩ | ⟨_, _, _, hk⟩ := hc
            all_goals omega
          rw [hp.1 hcc]
        · intro hc
          have hcc : s.keyboard.getD
              (s.v_registers.getD (s.opcode / 256 % 16) 0) 0 ≠ 0 :=
            fun heq =>
              hc (Or.inr (Or.inr (Or.inr (Or.inr (Or.inr ⟨ha, hb, ha1, heq⟩)))))
          rw [hp.2 hcc]
  · intro hn1 hn2 hnB hnEE hns
    rw [hAdv.1 (by omega)]
    suffices hu : u.program_counter = s.program_counter by rw [hu]
    by_cases hE0 : s.opcode = 0x00E0
    · rw [dispatch_arm_E0 dev hE0, pure_ok] at hdisp
      cases hdisp
      rfl
    by_cases h6 : 0x6000 ≤ s.opcode ∧ s.opcode ≤ 0x6FFF
    · rw [dispatch_arm_6 dev h6] at hdisp
      exact pc_set_vx_to_nn hdisp
    by_cases h7 : 0x7000 ≤ s.opcode ∧ s.opcode ≤ 0x7FFF
    · rw [dispatch_arm_7 dev h7] at hdisp
      exact pc_add_nn_to_vx hdisp
    by_cases h8 : 0x8000 ≤ s.opcode ∧ s.opcode ≤ 0x8FFF
    · rw [dispatch_arm_8 dev h8] at hdisp
      by_cases k0 : s.opcode % 16 = 0x0
      · rw [ite_yes k0] at hdisp; exact pc_sets_vx_to_vy hdisp
      rw [ite_no k0] at hdisp
      by_cases k1 : s.opcode % 16 = 0x1
      · rw [ite_yes k1] at hdisp; exact pc_or_vy hdisp
      rw [ite_no k1] at hdisp
      by_cases k2 : s.opcode % 16 = 0x2
      · rw [ite_yes k2] at hdisp; exact pc_and_vy hdisp
      rw [ite_no k2] at hdisp
      by_cases k3 : s.opcode % 16 = 0x3
      · rw [ite_yes k3] at hdisp; exact pc_xor_vy hdisp
      rw [ite_no k3] at hdisp
      by_cases k4 : s.opcode % 16 = 0x4
      · rw [ite_yes k4] at hdisp; exact pc_add8 hdisp
      rw [ite_no k4] at hdisp
      by_cases k5 : s.opcode % 16 = 0x5
      · rw [ite_yes k5] at hdisp; exact pc_sub8 hdisp
      rw [ite_no k5] at hdisp
      by_cases k6 : s.opcode % 16 = 0x6
      · rw [ite_yes k6] at hdisp; exact pc_lsb hdisp
      rw [ite_no k6] at hdisp
      by_cases k7 : s.opcode % 16 = 0x7
      · rw [ite_yes k7] at hdisp; exact pc_sub8rev hdisp
      rw [ite_no k7] at hdisp
      by_cases kE : s.opcode % 16 = 0xE
      · rw [ite_yes kE] at hdisp; exact pc_msb hdisp
      rw [ite_no kE] at hdisp
      exact absurd hdisp (by simp)
    by_cases hA : 0xA000 ≤ s.opcode ∧ s.opcode ≤ 0xAFFF
    · rw [dispatch_arm_A dev hA, pure_ok] at hdisp
      cases hdisp
      rfl
    by_cases hC : 0xC000 ≤ s.opcode ∧ s.opcode ≤ 0xCFFF
    · rw [dispatch_arm_C dev hC] at hdisp
      exact pc_rand hdisp
    by_cases hD : 0xD000 ≤ s.opcode ∧ s.opcode ≤ 0xDFFF
    · rw [dispatch_arm_D dev hD] at hdisp
      exact pc_set_graphics hdisp
    by_cases hF : 0xF000 ≤ s.opcode ∧ s.opcode ≤ 0xFFFF
    · rw [dispatch_arm_F dev hF] at hdisp
      by_cases f07 : s.opcode % 256 = 0x07
      · rw [ite_yes f07] at hdisp; exact pc_read_delay hdisp
      rw [ite_no f07] at hdisp
      by_cases f0A : s.opcode % 256 = 0x0A
      · rw [ite_yes f0A] at hdisp; exact pc_key_press hdisp
      rw [ite_no f0A] at hdisp
      by_cases f15 : s.opcode % 256 = 0x15
      · rw [ite_yes f15] at hdisp; exact pc_write_delay hdisp
      rw [ite_no f15] at hdisp
      by_cases f18 : s.opcode % 256 = 0x18
      · rw [ite_yes f18] at hdisp; exact pc_write_sound hdisp
      rw [ite_no f18] at hdisp
      by_cases f1E : s.opcode % 256 = 0x1E
      · rw [ite_yes f1E] at hdisp; exact pc_add_i hdisp
      rw [ite_no f1E] at hdisp
      by_cases f29 : s.opcode % 256 = 0x29
      · rw [ite_yes f29] at hdisp; exact pc_set_i hdisp
      rw [ite_no f29] at hdisp
      by_cases f33 : s.opcode % 256 = 0x33
      · rw [ite_yes f33] at hdisp; exact pc_bcd hdisp
      rw [ite_no f33] at hdisp
      by_cases f55 : s.opcode % 256 = 0x55
      · rw [ite_yes f55] at hdisp; exact pc_store_regs hdisp
      rw [ite_no f55] at hdisp
      by_cases f65 : s.opcode % 256 = 0x65
      · rw [ite_yes f65] at hdisp; exact pc_load_regs hdisp
      rw [ite_no f65] at hdisp
      exact absurd hdisp (by simp)
    by_cases h3 : 0x3000 ≤ s.opcode ∧ s.opcode ≤ 0x3FFF
    · exact absurd (Or.inl h3) hns
    by_cases h4 : 0x4000 ≤ s.opcode ∧ s.opcode ≤ 0x4FFF
    · exact absurd (Or.inr (Or.inl h4)) hns
    by_cases h5 : 0x5000 ≤ s.opcode ∧ s.opcode ≤ 0x5FFF
    · exact absurd (Or.inr (Or.inr (Or.inl h5))) hns
    by_cases h9 : 0x9000 ≤ s.opcode ∧ s.opcode ≤ 0x9FFF
    · exact absurd (Or.inr (Or.inr (Or.inr (Or.inl h9)))) hns
    by_cases hE : 0xE000 ≤ s.opcode ∧ s.opcode ≤ 0xEFFF
    · by_cases h9E : s.opcode % 256 = 0x9E
      · exact absurd
          (Or.inr (Or.inr (Or.inr (Or.inr ⟨hE.1, hE.2, Or.inl h9E⟩)))) hns
      by_cases hA1 : s.opcode % 256 = 0xA1
      · exact absurd
          (Or.inr (Or.inr (Or.inr (Or.inr ⟨hE.1, hE.2, Or.inr hA1⟩)))) hns
      rw [dispatch_errP dev
        (Or.inl (Or.inr (Or.inr (Or.inl ⟨hE.1, hE.2, h9E, hA1⟩))))] at hdisp
      exact absurd hdisp (by simp)
    have hrest : unmatched s.opcode ∨ 65536 ≤ s.opcode := by
      by_cases hbig : 65536 ≤ s.opcode
      · exact Or.inr hbig
      · exact Or.inl (Or.inl ⟨by omega, hE0, hnEE⟩)
    rw [dispatch_errP dev hrest] at hdisp
    exact absurd hdisp (by simp)

/-- Witness for `c1_pc_policy`: the jump 0x1234 lands on 0x234. -/
theorem c1_pc_policy_witness : c1wt.program_counter = c1w.opcode % 4096 :=
  (c1_pc_policy dev0 c1w c1wt (by decide)).1 (Or.inl (by decide))

/-- C6 (counterexample): opcode 0x5231 (leading nibble 5, low nibble 1) is
matched by the `0x5000..=0x5FFF` dispatch arm and executes as
skip-if-`V[X] = V[Y]` (here skipping, to `PC = 0x204`), so dispatch does
not fail with invalid-opcode 0x5231 as the claim states. -/
theorem c6_counterexample :
    execOp dev0 0x5231 base ≠ .err (.InvalidOpcode 0x5231) ∧
    rpc (execOp dev0 0x5231 base) = some 0x204 := by decide

/-- C6 (amended): every opcode matched by none of the dispatch arms — a
leading nibble 0 other than 00E0/00EE, 8XYN with N outside {0..7, E},
EXNN with NN outside {9E, A1}, FXNN with NN outside the nine handled
values — makes `interpret_opcode` fail with `InvalidOpcode` carrying the
raw opcode value. (5XYN with N ≠ 0, such as 0x5231, is not among them:
the 5-family arm covers the whole 0x5000..=0x5FFF range.) -/
theorem c6_invalid_dispatch (dev : Devices) (s : Chip8)
    (h : unmatched s.opcode) :
    interpret_opcode dev s = .err (.InvalidOpcode s.opcode) := by
  have hd : dispatch dev s = .err (.InvalidOpcode s.opcode) := dispatch_errP dev (Or.inl h)
  unfold interpret_opcode
  rw [hd]
  rfl

/-- Witness for `c6_invalid_dispatch` at opcode 0x0000. -/
theorem c6_invalid_dispatch_witness :
    interpret_opcode dev0 base = .err (.InvalidOpcode 0) :=
  c6_invalid_dispatch dev0 base (by decide)

/-- C7 (counterexample): executing 0x00EE with `stack_pointer = 0` panics
(the unchecked `stack_pointer -= 1` underflows), it is not surfaced as a
returned error value as the claim states. -/
theorem c7_counterexample : execOp dev0 0x00EE base = .panicked := by decide

/-- C7 (amended): with a 16-entry stack, 00EE at `stack_pointer = 0` and
2NNN at `stack_pointer = 16` both panic (unchecked decrement / out-of-range
index) rather than returning a `Chip8Error`; for 0 < sp ≤ 16 the return
succeeds (when the popped address + 2 fits in 16 bits), and for sp < 16
the call succeeds. -/
theorem c7_stack_guard (dev : Devices) (s : Chip8) (h16 : s.stack.length = 16) :
    (s.opcode = 0x00EE →
      (s.stack_pointer = 0 → interpret_opcode dev s = .panicked) ∧
      (0 < s.stack_pointer → s.stack_pointer ≤ 16 →
        s.stack.getD (s.stack_pointer - 1) 0 + 2 < 65536 →
        ∃ t, interpret_opcode dev s = .ok t)) ∧
    (0x2000 ≤ s.opcode → s.opcode ≤ 0x2FFF →
      (s.stack_pointer = 16 → interpret_opcode dev s = .panicked) ∧
      (s.stack_pointer < 16 → ∃ t, interpret_opcode dev s = .ok t)) := by
  constructor
  · intro hop
    have hdis : dispatch dev s = return_from_routine s := by
      unfold dispatch
      rw [ite_no (by omega), ite_yes hop]
    have hlead : s.opcode / 4096 = 0 := by omega
    constructor
    · intro hsp
      unfold interpret_opcode
      rw [hdis]
      unfold return_from_routine csub
      rw [hsp]
      simp [Bind.bind, RRes.bind]
    · intro hpos hle hfit
      unfold interpret_opcode
      rw [hdis]
      unfold return_from_routine csub
      rw [ite_yes (by omega : 1 ≤ s.stack_pointer)]
      simp only [Bind.bind, RRes.bind]
      rw [show rget s.stack (s.stack_pointer - 1) =
            .ok (s.stack.getD (s.stack_pointer - 1) 0) from rget_lt (by omega)]
      simp only [Bind.bind, RRes.bind, pure]
      unfold advance
      rw [hlead]
      rw [ite_no (by decide)]
      simp only [Bind.bind, RRes.bind]
      unfold cadd16
      rw [ite_yes (by simpa using hfit)]
      exact ⟨_, rfl⟩
  · intro ha hb
    have hdis : dispatch dev s = jump_to_routine (s.opcode % 4096) s := by
      unfold dispatch
      rw [ite_no (by omega), ite_no (by omega), ite_no (by omega), ite_yes ⟨ha, hb⟩]
    have hlead : s.opcode / 4096 = 2 := by omega
    constructor
    · intro hsp
      unfold interpret_opcode
      rw [hdis]
      unfold jump_to_routine
      rw [rset_eq, h16, hsp]
      simp [Bind.bind, RRes.bind]
    · intro hsp
      unfold interpret_opcode
      rw [hdis]
      unfold jump_to_routine
      rw [rset_eq, h16, ite_yes hsp]
      simp only [Bind.bind, RRes.bind]
      unfold cadd16
      rw [ite_yes (by omega)]
      simp only [Bind.bind, RRes.bind, pure]
      unfold advance
      rw [hlead]
      rw [ite_yes (by decide)]
      exact ⟨_, rfl⟩

/-- Witness for `c7_stack_guard`: a successful return at `stack_pointer = 1`. -/
theorem c7_stack_guard_witness : ∃ t, interpret_opcode dev0 c7w = .ok t :=
  ((c7_stack_guard dev0 c7w (by decide)).1 (by decide)).2 (by decide) (by decide)
    (by decide)

/-- C8 (counterexample): loading a 3585-byte program into a fresh-sized
memory fails with `UnableToLoadProgram`, but the memory is *not* left
unmodified: byte 0x200, which was 0, now holds the program's first byte
(171) — the slice writer copies the first 3584 bytes before `write_all`
reports the failure. -/
theorem c8_counterexample :
    lpRes (load_program s8c rom8) = some (some .UnableToLoadProgram) ∧
    lpMem (load_program s8c rom8) 0x200 = some 171 ∧
    s8c.memory.get? 0x200 = some 0 := by
  have hm : s8c.memory = List.replicate 4096 0 := rfl
  have hpc : s8c.program_counter = 0x200 := rfl
  have hlen : (List.replicate 4096 (0 : Nat)).length = 4096 := by
    rw [List.length_replicate]
  have hrlen : rom8.length = 3585 := by rw [rom8, List.length_replicate]
  refine ⟨?_, ?_, ?_⟩
  · unfold lpRes load_program
    rw [hm, hpc, hlen, hrlen]
    norm_num
  · unfold lpMem load_program
    rw [hm, hpc, hlen, hrlen]
    norm_num
    rw [show rom8.take 3584 = List.replicate 3584 171 by
      rw [rom8]; norm_num [List.take_replicate]]
    rw [List.getElem?_append_right (by rw [List.length_replicate])]
    rw [List.length_replicate]
    norm_num [List.getElem?_replicate]
  · rw [hm, List.get?_eq_getElem?]
    norm_num [List.getElem?_replicate]

/-- C8 (amended): with a 4096-byte memory and `PC = 0x200`, loading at most
3584 bytes succeeds and writes them verbatim at 0x200; loading more than
3584 bytes fails with `UnableToLoadProgram` after having written the first
3584 bytes at 0x200. -/
theorem c8_load_program (s : Chip8) (rom : List Nat)
    (hm : s.memory.length = 4096) (hpc : s.program_counter = 0x200) :
    (rom.length ≤ 3584 →
      load_program s rom =
        .ok ({ s with memory :=
                s.memory.take 0x200 ++ rom ++ s.memory.drop (0x200 + rom.length) },
          .ok ())) ∧
    (3584 < rom.length →
      load_program s rom =
        .ok ({ s with memory :=
                s.memory.take 0x200 ++ rom.take 3584 ++
                  s.memory.drop (0x200 + rom.length) },
          .error .UnableToLoadProgram)) := by
  unfold load_program
  rw [hpc, hm]
  rw [ite_yes (by norm_num)]
  constructor
  · intro h
    norm_num [pure_ok, List.take_of_length_le h, h]
  · intro h
    norm_num [pure_ok, show ¬(rom.length ≤ 3584) from by omega]

/-- Witness for `c8_load_program`: loading the one-byte program `[5]`. -/
theorem c8_load_program_witness :
    load_program s8c [5] =
      .ok ({ s8c with memory :=
              s8c.memory.take 0x200 ++ [5] ++ s8c.memory.drop (0x200 + 1) },
        .ok ()) :=
  (c8_load_program s8c [5]
    (by simp only [s8c, base, List.length_replicate]) rfl).1 (by norm_num)

/-- C9: from any state with room on the stack (sp < 16) and a program
counter whose successor address fits in 16 bits, executing a call 2NNN and
then immediately 00EE returns with `PC = p + 2` (the address just past the
call site) and the stack pointer restored to its pre-call value. -/
theorem c9_call_return (dev dev2 : Devices) (s : Chip8) (nnn : Nat)
    (h16 : s.stack.length = 16) (hsp : s.stack_pointer < 16)
    (hpc : s.program_counter + 2 < 65536) (hn : nnn ≤ 0xFFF) :
    ∃ t u, execOp dev (0x2000 + nnn) s = .ok t ∧ execOp dev2 0x00EE t = .ok u ∧
      u.program_counter = s.program_counter + 2 ∧
      u.stack_pointer = s.stack_pointer := by
  have hmod : (0x2000 + nnn) % 4096 = nnn := by omega
  have hdiv : (0x2000 + nnn) / 4096 = 2 := by omega
  refine ⟨{ s with opcode := 0x2000 + nnn, stack := s.stack.set s.stack_pointer s.program_counter, stack_pointer := s.stack_pointer + 1, program_counter := nnn }, { s with opcode := 0x00EE, stack := s.stack.set s.stack_pointer s.program_counter, stack_pointer := s.stack_pointer, program_counter := s.program_counter + 2 }, ?_, ?_, rfl, rfl⟩
  · unfold execOp interpret_opcode dispatch
    simp only
    rw [ite_no (by omega), ite_no (by omega), ite_no (by omega),
      ite_yes ⟨by omega, by omega⟩]
    unfold jump_to_routine
    simp only [hmod, hdiv]
    rw [rset_eq]
    simp only [h16]
    rw [ite_yes hsp]
    simp only [Bind.bind, RRes.bind]
    unfold cadd16
    rw [ite_yes (by omega)]
    simp only [Bind.bind, RRes.bind, pure]
    unfold advance
    rw [ite_yes (by decide : (2 : Nat) = 1 ∨ (2 : Nat) = 2 ∨ (2 : Nat) = 11)]
    rfl
  · unfold execOp interpret_opcode dispatch
    simp only
    rw [ite_no (by omega), ite_yes (by trivial)]
    unfold return_from_routine csub
    dsimp only
    rw [ite_yes (by omega)]
    simp only [Bind.bind, RRes.bind, Nat.add_sub_cancel]
    rw [show rget (s.stack.set s.stack_pointer s.program_counter) s.stack_pointer =
          .ok s.program_counter by
        unfold rget
        rw [List.get?_eq_getElem?, List.getElem?_set_self (by omega)]]
    simp only [Bind.bind, RRes.bind, pure]
    unfold advance
    rw [ite_no (by decide :
      ¬((238 : Nat) / 4096 = 1 ∨ (238 : Nat) / 4096 = 2 ∨ (238 : Nat) / 4096 = 11))]
    simp only [Bind.bind, RRes.bind]
    unfold cadd16
    rw [ite_yes hpc]
    rfl

/-- Witness for `c9_call_return`: call 0x2345 then return from `base`. -/
theorem c9_call_return_witness :
    ∃ t u, execOp dev0 (0x2000 + 0x345) base = .ok t ∧
      execOp dev0 0x00EE t = .ok u ∧
      u.program_counter = base.program_counter + 2 ∧
      u.stack_pointer = base.stack_pointer :=
  c9_call_return dev0 dev0 base 0x345 (by decide) (by decide) (by decide) (by decide)

/-- C10: if the graphics sink fails, `emulate_cycle` returns that very error
and the resulting state is exactly the post-instruction state `s2`: the
fetched instruction's effects are applied, while the timers, the audio
port, and the keyboard (whose update would also produce any exit signal)
are untouched — the result is an `error`, never an `ok Exit`. -/
theorem c10_draw_error (dev : Devices) (s s2 : Chip8) (e : Chip8Error) (hi lo : Nat)
    (h1 : s.memory.get? s.program_counter = some hi)
    (h2 : s.memory.get? (s.program_counter + 1) = some lo)
    (h3 : interpret_opcode dev { s with opcode := (hi <<< 8) ||| lo } = .ok s2)
    (hd : dev.draw_res = .error e) :
    emulate_cycle dev s = .out s2 (.error e) := by
  unfold emulate_cycle fetch_opcode rget
  rw [h1, h2]
  simp only [Bind.bind, RRes.bind, pure]
  rw [h3, hd]

/-- Witness for `c10_draw_error`: a failing graphics sink aborts the cycle
right after the fetched 0x6012 has executed. -/
theorem c10_draw_error_witness :
    emulate_cycle devD s10c = .out s10t (.error (.GraphicsError "boom")) :=
  c10_draw_error devD s10c s10t (.GraphicsError "boom") 0x60 0x12
    (by decide) (by decide) (by decide) rfl

end Chip8V
